import Mathlib

/-!
# LuaTutorials: the stack protocol of the example programs

A shallow embedding of the example programs of the repository (the `Tables`,
`StandaloneLuaScript`, `CFunctionsFromLua` and `LuaFunctionsFromC` examples) over a
model of the part of the Lua 5.3 C API they call.

* The Lua library itself is an external dependency.  Its functions are modelled after
  the Lua 5.3 reference manual and `lapi.c`/`lauxlib.c`; the macros of `lua.h` and
  `lauxlib.h` (`lua_pop`, `lua_tostring`, `luaL_dofile`, ...) are defined by their
  expansions.
* What a script file does when it is loaded and run is an input of the model
  (`ScriptFile`, `CallOutcome`), and so are the conversions between numbers and strings
  of the C library (`Host`).
* The stack is a list whose HEAD is the TOP of the stack, so index `-1` is the head
  and index `1` is the last element.
* Values have no metatables: the table readers run in states in which no library was
  opened, so that the asset files cannot set one.
* A Lua error raised outside a protected call, and a call that violates a precondition
  of the API, end a computation with a `Fault`; the loops around `lua_next` take fuel.
* Every API call is recorded in `lua_State.calls`, most recent call first.
-/

set_option autoImplicit false

/-! ## Lua values -/

/-- A Lua value.  Tables, functions, userdata and threads are reference types and carry
the identity `ref` they are compared by.  A table lists its key/value pairs in the order
in which `lua_next` traverses them, and carries `border`, the length the primitive
length operator (`luaH_getn`) reports for it.  A float carries its value as a rational
(every finite `double` is one); the programs only store, compare by type and convert
floats, and where the source computes with them the arithmetic is a parameter
(`NumberArithmetic`), not the arithmetic of `ℚ`. -/
inductive LuaValue where
  | nil
  | boolean (b : Bool)
  | lightuserdata (p : ℕ)
  | integer (i : ℤ)
  | number (x : ℚ)
  | string (s : String)
  | table (ref : ℕ) (border : ℕ) (pairs : List (LuaValue × LuaValue))
  | function (ref : ℕ)
  | userdata (ref : ℕ)
  | thread (ref : ℕ)

instance : Inhabited LuaValue := ⟨LuaValue.nil⟩

/-- Basic type tags of `lua.h`. -/
def LUA_TNONE : ℤ := -1
def LUA_TNIL : ℤ := 0
def LUA_TBOOLEAN : ℤ := 1
def LUA_TLIGHTUSERDATA : ℤ := 2
def LUA_TNUMBER : ℤ := 3
def LUA_TSTRING : ℤ := 4
def LUA_TTABLE : ℤ := 5
def LUA_TFUNCTION : ℤ := 6
def LUA_TUSERDATA : ℤ := 7
def LUA_TTHREAD : ℤ := 8

/-- Option for multiple returns in `lua_pcall` and `lua_call`. -/
def LUA_MULTRET : ℤ := -1

/-- Thread status `LUA_OK` of `lua.h`. -/
def LUA_OK : ℤ := 0

/-- Type tag of a value (`ttnov`). -/
def LuaValue.type : LuaValue → ℤ
  | .nil => LUA_TNIL
  | .boolean _ => LUA_TBOOLEAN
  | .lightuserdata _ => LUA_TLIGHTUSERDATA
  | .integer _ => LUA_TNUMBER
  | .number _ => LUA_TNUMBER
  | .string _ => LUA_TSTRING
  | .table _ _ _ => LUA_TTABLE
  | .function _ => LUA_TFUNCTION
  | .userdata _ => LUA_TUSERDATA
  | .thread _ => LUA_TTHREAD

/-- Primitive equality (`luaV_rawequalobj`): values of different kinds differ, strings are
compared by content, reference types by identity; an integer equals a float when the
float holds the same integral value. -/
def luaV_rawequalobj : LuaValue → LuaValue → Bool
  | .nil, .nil => true
  | .boolean a, .boolean b => a == b
  | .lightuserdata a, .lightuserdata b => a == b
  | .integer a, .integer b => a == b
  | .number a, .number b => a == b
  | .integer a, .number b => (a : ℚ) == b
  | .number a, .integer b => a == (b : ℚ)
  | .string a, .string b => a == b
  | .table a _ _, .table b _ _ => a == b
  | .function a, .function b => a == b
  | .userdata a, .userdata b => a == b
  | .thread a, .thread b => a == b
  | _, _ => false

/-- Raw table read (`luaH_get`): the value stored under the key, `nil` when the key is
absent. -/
def luaH_get (pairs : List (LuaValue × LuaValue)) (key : LuaValue) : LuaValue :=
  match pairs.find? (fun p => luaV_rawequalobj p.1 key) with
  | some p => p.2
  | none => LuaValue.nil

/-- Position of a key in the traversal order of a table (`findindex` of `ltable.c`). -/
def findindex (pairs : List (LuaValue × LuaValue)) (key : LuaValue) : Option ℕ :=
  if pairs.findIdx (fun p => luaV_rawequalobj p.1 key) < pairs.length then
    some (pairs.findIdx (fun p => luaV_rawequalobj p.1 key))
  else none

/-! ## The interpreter state -/

/-- Calls of the Lua API, as recorded in the call log.  Macros are recorded as the
functions they expand to. -/
inductive ApiCall where
  | luaL_newstate
  | luaL_openlibs
  | lua_close
  | lua_gettop
  | lua_settop (idx : ℤ)
  | luaL_loadfilex
  | lua_pcallk (nargs nresults : ℤ)
  | lua_callk (nargs nresults : ℤ)
  | lua_type (idx : ℤ)
  | lua_typename
  | lua_tolstring (idx : ℤ)
  | lua_tonumberx (idx : ℤ)
  | lua_pushnil
  | lua_pushboolean
  | lua_pushinteger
  | lua_pushnumber
  | lua_pushstring
  | lua_pushcclosure
  | lua_getglobal
  | lua_setglobal
  | lua_gettable (idx : ℤ)
  | luaL_len (idx : ℤ)
  | lua_next (idx : ℤ)
  | luaL_error
  deriving DecidableEq, Repr

/-- The part of the host platform the programs depend on: whether the allocation of a
new state fails, and the conversions between numbers and strings of the C library
(`lua_Number2str` with `"%.14g"`, `l_str2d`), which the model leaves open. -/
structure Host where
  outOfMemory : Bool
  number2str : ℚ → String
  str2number : String → Option ℚ

/-- The arithmetic of `lua_Number`, which is a C `double`: the operators `+`, `*` and `/`
of the source round their results and can overflow or underflow, so they are not the
exact operations of `ℚ`.  The model takes them as given operations on the values of
numbers and assumes nothing about them. -/
structure NumberArithmetic where
  add : ℚ → ℚ → ℚ
  mul : ℚ → ℚ → ℚ
  div : ℚ → ℚ → ℚ

/-- An interpreter instance: the stack of the running function (head is the top), the
log of API calls made on it (most recent first) and the conversions of the host. -/
structure lua_State where
  stack : List LuaValue
  calls : List ApiCall
  number2str : ℚ → String
  str2number : String → Option ℚ

/-- Ways in which a sequence of API calls stops before the calling function returns. -/
inductive Fault where
  /-- A Lua error was raised (`lua_error`, `luaG_runerror`): control leaves the C code
  by a long jump.  Outside a protected call the panic function runs and the program is
  aborted. -/
  | raised
  /-- A call that violates the preconditions of the API (`api_check`): undefined
  behaviour. -/
  | apiCheck
  /-- The model ran out of loop iterations. -/
  | outOfFuel
  deriving DecidableEq, Repr

/-- Result of running API calls on a state. -/
inductive Outcome (α : Type) where
  | ok (value : α) (L : lua_State)
  | fault (f : Fault) (L : lua_State)

/-- Computations on an interpreter state. -/
def LuaM (α : Type) : Type := lua_State → Outcome α

/-- Sequencing: a fault ends the computation. -/
def LuaM.bind {α β : Type} (x : LuaM α) (f : α → LuaM β) : LuaM β := fun L =>
  match x L with
  | .ok a L1 => f a L1
  | .fault e L1 => .fault e L1

instance : Monad LuaM where
  pure a := fun L => .ok a L
  bind := LuaM.bind

/-- Records an API call. -/
def record (c : ApiCall) (L : lua_State) : lua_State :=
  { L with calls := c :: L.calls }

/-- Resolution of a stack index (`index2addr`). -/
inductive Addr where
  /-- A valid index: the position counted from the top, and the value there. -/
  | slot (pos : ℕ) (v : LuaValue)
  /-- An acceptable index above the top of the stack. -/
  | nonvalid
  /-- Not an acceptable index. -/
  | bad

/-- Resolves a stack index: positive indices count from the bottom (`1` is the first
value pushed), negative indices from the top (`-1` is the top).  Pseudo-indices are not
modelled; no example uses them. -/
def index2addr (L : lua_State) (idx : ℤ) : Addr :=
  if 0 < idx then
    if idx.toNat ≤ L.stack.length then
      match L.stack[L.stack.length - idx.toNat]? with
      | some v => .slot (L.stack.length - idx.toNat) v
      | none => .nonvalid
    else .nonvalid
  else if idx < 0 then
    match L.stack[(-idx).toNat - 1]? with
    | some v => .slot ((-idx).toNat - 1) v
    | none => .bad
  else .bad

/-- Pushes a value (`api_incr_top`). -/
def push (v : LuaValue) (L : lua_State) : lua_State :=
  { L with stack := v :: L.stack }

/-! ## The API functions -/

/-- Behaviour of `lua_gettop`: the number of values on the stack. -/
def lua_gettop : LuaM ℤ := fun L =>
  .ok (L.stack.length : ℤ) (record .lua_gettop L)

/-- Behaviour of `lua_settop`: a non-negative index becomes the new top (filling with
`nil`), a negative index `-n-1` removes `n` values, which must be there. -/
def lua_settop (idx : ℤ) : LuaM Unit := fun L =>
  let L := record (.lua_settop idx) L
  if 0 ≤ idx then
    if idx.toNat ≤ L.stack.length then
      .ok () { L with stack := L.stack.drop (L.stack.length - idx.toNat) }
    else
      .ok () { L with stack := List.replicate (idx.toNat - L.stack.length) LuaValue.nil ++ L.stack }
  else
    if (-idx).toNat - 1 ≤ L.stack.length then
      .ok () { L with stack := L.stack.drop ((-idx).toNat - 1) }
    else
      .fault .apiCheck L

/-- Macro `lua_pop(L,n)`, which is `lua_settop(L, -(n)-1)`. -/
def lua_pop (n : ℤ) : LuaM Unit := lua_settop (-(n) - 1)

/-- Behaviour of `lua_type`: the type tag of the value at the index, `LUA_TNONE` for an
acceptable index that holds no value. -/
def lua_type (idx : ℤ) : LuaM ℤ := fun L =>
  let L := record (.lua_type idx) L
  match index2addr L idx with
  | .slot _ v => .ok v.type L
  | .nonvalid => .ok LUA_TNONE L
  | .bad => .fault .apiCheck L

/-- Macro `lua_isnil(L,n)`. -/
def lua_isnil (n : ℤ) : LuaM Bool := do
  let t ← lua_type n
  pure (t == LUA_TNIL)

/-- Macro `lua_istable(L,n)`. -/
def lua_istable (n : ℤ) : LuaM Bool := do
  let t ← lua_type n
  pure (t == LUA_TTABLE)

/-- Names of the types (`luaT_typenames_`). -/
def ttypename (t : ℤ) : String :=
  if t = LUA_TNONE then "no value"
  else if t = LUA_TNIL then "nil"
  else if t = LUA_TBOOLEAN then "boolean"
  else if t = LUA_TLIGHTUSERDATA then "userdata"
  else if t = LUA_TNUMBER then "number"
  else if t = LUA_TSTRING then "string"
  else if t = LUA_TTABLE then "table"
  else if t = LUA_TFUNCTION then "function"
  else if t = LUA_TUSERDATA then "userdata"
  else if t = LUA_TTHREAD then "thread"
  else "?"

/-- Behaviour of `lua_typename`: the name of a type tag; the stack is not touched. -/
def lua_typename (t : ℤ) : LuaM String := fun L =>
  .ok (ttypename t) (record .lua_typename L)

/-- Macro `luaL_typename(L,i)`, which is `lua_typename(L, lua_type(L,(i)))`. -/
def luaL_typename (i : ℤ) : LuaM String := do
  let t ← lua_type i
  lua_typename t

/-- Conversion of a number to a string where the API expects a string (`cvt2str` and
`luaO_tostring`): integers are written in decimal, floats as the host formats them;
values that are not numbers are left as they are. -/
def luaO_tostring (number2str : ℚ → String) : LuaValue → LuaValue
  | .integer i => .string (toString i)
  | .number x => .string (number2str x)
  | v => v

/-- The characters of a string value (`svalue`), `none` for other values. -/
def LuaValue.svalue : LuaValue → Option String
  | .string s => some s
  | _ => none

/-- Behaviour of `lua_tolstring`: a string is returned as it is; a number is CONVERTED IN
THE STACK to a string, which is returned; any other value gives `NULL` (`none`) and is
left as it is. -/
def lua_tolstring (idx : ℤ) : LuaM (Option String) := fun L =>
  let L := record (.lua_tolstring idx) L
  match index2addr L idx with
  | .slot pos v =>
      .ok (luaO_tostring L.number2str v).svalue
        { L with stack := L.stack.set pos (luaO_tostring L.number2str v) }
  | .nonvalid => .ok none L
  | .bad => .fault .apiCheck L

/-- Macro `lua_tostring(L,i)`, which is `lua_tolstring(L, (i), NULL)`. -/
def lua_tostring (i : ℤ) : LuaM (Option String) := lua_tolstring i

/-- Conversion of a value to a float (`luaV_tonumber_`): a number as it is, a string
when the host reads it as a numeral; `0` for anything else. -/
def luaV_tonumber (str2number : String → Option ℚ) : LuaValue → ℚ
  | .integer i => (i : ℚ)
  | .number x => x
  | .string s => (str2number s).getD 0
  | _ => 0

/-- Behaviour of `lua_tonumberx`: the value at the index converted to a float, `0` when
it cannot be converted.  The stack is not changed. -/
def lua_tonumberx (idx : ℤ) : LuaM ℚ := fun L =>
  let L := record (.lua_tonumberx idx) L
  match index2addr L idx with
  | .slot _ v => .ok (luaV_tonumber L.str2number v) L
  | .nonvalid => .ok 0 L
  | .bad => .fault .apiCheck L

/-- Macro `lua_tonumber(L,i)`, which is `lua_tonumberx(L,(i),NULL)`. -/
def lua_tonumber (i : ℤ) : LuaM ℚ := lua_tonumberx i

/-- Behaviour of `lua_pushnil`. -/
def lua_pushnil : LuaM Unit := fun L =>
  .ok () (push .nil (record .lua_pushnil L))

/-- Behaviour of `lua_pushboolean`. -/
def lua_pushboolean (b : Bool) : LuaM Unit := fun L =>
  .ok () (push (.boolean b) (record .lua_pushboolean L))

/-- Behaviour of `lua_pushinteger`. -/
def lua_pushinteger (n : ℤ) : LuaM Unit := fun L =>
  .ok () (push (.integer n) (record .lua_pushinteger L))

/-- Behaviour of `lua_pushnumber`. -/
def lua_pushnumber (n : ℚ) : LuaM Unit := fun L =>
  .ok () (push (.number n) (record .lua_pushnumber L))

/-- Behaviour of `lua_pushstring` on a non-null string. -/
def lua_pushstring (s : String) : LuaM Unit := fun L =>
  .ok () (push (.string s) (record .lua_pushstring L))

/-- Behaviour of `lua_gettable` on values without metatables: the key at the top is
replaced by the value the table at `idx` holds for it.  Indexing a value that is not a
table raises a Lua error. -/
def lua_gettable (idx : ℤ) : LuaM ℤ := fun L =>
  let L := record (.lua_gettable idx) L
  match index2addr L idx with
  | .slot _ (.table _ _ pairs) =>
      match L.stack with
      | key :: rest => .ok (luaH_get pairs key).type { L with stack := luaH_get pairs key :: rest }
      | [] => .fault .apiCheck L
  | .slot _ _ => .fault .raised L
  | .nonvalid => .fault .raised L
  | .bad => .fault .apiCheck L

/-- Behaviour of `luaL_len` on values without metatables: the border of a table, the
length of a string; a Lua error for any other value.  The stack is left as it was. -/
def luaL_len (idx : ℤ) : LuaM ℤ := fun L =>
  let L := record (.luaL_len idx) L
  match index2addr L idx with
  | .slot _ (.table _ border _) => .ok (border : ℤ) L
  | .slot _ (.string s) => .ok (s.utf8ByteSize : ℤ) L
  | .slot _ _ => .fault .raised L
  | .nonvalid => .fault .raised L
  | .bad => .fault .apiCheck L

/-- Where a traversal continues after `key` (`luaH_next` with `findindex`): at the first
pair for `nil`, after the pair of the key otherwise; `none` when the key is not in the
table. -/
def traversalStart (pairs : List (LuaValue × LuaValue)) (key : LuaValue) : Option ℕ :=
  match key with
  | .nil => some 0
  | _ => (findindex pairs key).map (fun i => i + 1)

/-- Behaviour of `lua_next`: pops the key at the top and pushes the pair that follows it
in the table at `idx` (the first pair when the key is `nil`), returning `1`; when no pair
follows, pushes nothing and returns `0`.  A key that is not in the table raises the Lua
error "invalid key to 'next'". -/
def lua_next (idx : ℤ) : LuaM ℤ := fun L =>
  let L := record (.lua_next idx) L
  match index2addr L idx with
  | .slot _ (.table _ _ pairs) =>
      match L.stack with
      | key :: rest =>
          match traversalStart pairs key with
          | some i =>
              match pairs[i]? with
              | some (k, v) => .ok 1 { L with stack := v :: k :: rest }
              | none => .ok 0 { L with stack := rest }
          | none => .fault .raised L
      | [] => .fault .apiCheck L
  | _ => .fault .apiCheck L

/-! ## Calls and script files -/

/-- A status other than `LUA_OK` (`LUA_ERRRUN`, `LUA_ERRSYNTAX`, `LUA_ERRMEM`, `LUA_ERRGCMM`,
`LUA_ERRERR`, `LUA_ERRFILE`). -/
structure ErrStatus where
  code : ℤ
  nonzero : code ≠ LUA_OK

/-- What calling a function does, as far as the caller can see, when control comes back
from the function: it returns values (listed in the order in which they are returned)
or raises an error with an error object.  A function that ends the process (`os.exit`)
or runs for ever gives control back to no one and has no outcome here: what is proved
for every outcome says nothing about such a function. -/
inductive CallOutcome where
  | returned (values : List LuaValue)
  | raised (status : ErrStatus) (err : LuaValue)

/-- A script file as the loading functions see it: whether `luaL_loadfilex` fails on it
(with which status and message), the identity of the chunk it compiles to, and what
running the chunk does. -/
structure ScriptFile where
  loadError : Option (ErrStatus × String)
  chunk : ℕ
  run : CallOutcome

/-- Results of a call adjusted to `nresults`: all of them for `LUA_MULTRET`, otherwise
exactly `nresults`, dropping the extra ones or filling up with `nil`. -/
def adjustResults (values : List LuaValue) (nresults : ℤ) : List LuaValue :=
  if nresults = LUA_MULTRET then values
  else values.take nresults.toNat ++ List.replicate (nresults.toNat - values.length) LuaValue.nil

/-- Behaviour of `lua_pcallk` without a message handler, for a call whose outcome is
`o`: the function and its `nargs` arguments are removed; on success the adjusted
results are pushed in order and `LUA_OK` is returned, on an error the error object is
pushed and the error status returned. -/
def lua_pcallk (o : CallOutcome) (nargs nresults : ℤ) : LuaM ℤ := fun L =>
  let L := record (.lua_pcallk nargs nresults) L
  if 0 ≤ nargs ∧ nargs.toNat + 1 ≤ L.stack.length then
    match o with
    | .returned values =>
        .ok LUA_OK { L with stack :=
          (adjustResults values nresults).reverse ++ L.stack.drop (nargs.toNat + 1) }
    | .raised status err =>
        .ok status.code { L with stack := err :: L.stack.drop (nargs.toNat + 1) }
  else .fault .apiCheck L

/-- Macro `lua_pcall(L,n,r,f)`, which is `lua_pcallk(L, (n), (r), (f), 0, NULL)`.  Every
call of the examples passes `0` for the message handler `f`. -/
def lua_pcall (o : CallOutcome) (n r : ℤ) (_f : ℤ) : LuaM ℤ := lua_pcallk o n r

/-- Behaviour of `lua_callk`, for a call whose outcome is `o`: as `lua_pcallk` on
success; an error is not caught and propagates. -/
def lua_callk (o : CallOutcome) (nargs nresults : ℤ) : LuaM Unit := fun L =>
  let L := record (.lua_callk nargs nresults) L
  if 0 ≤ nargs ∧ nargs.toNat + 1 ≤ L.stack.length then
    match o with
    | .returned values =>
        .ok () { L with stack :=
          (adjustResults values nresults).reverse ++ L.stack.drop (nargs.toNat + 1) }
    | .raised _ _ => .fault .raised { L with stack := L.stack.drop (nargs.toNat + 1) }
  else .fault .apiCheck L

/-- Macro `lua_call(L,n,r)`, which is `lua_callk(L, (n), (r), 0, NULL)`. -/
def lua_call (o : CallOutcome) (n r : ℤ) : LuaM Unit := lua_callk o n r

/-- Behaviour of `luaL_loadfilex`: pushes the compiled chunk and returns `LUA_OK`, or
pushes the error message and returns the error status. -/
def luaL_loadfilex (file : ScriptFile) : LuaM ℤ := fun L =>
  let L := record .luaL_loadfilex L
  match file.loadError with
  | none => .ok LUA_OK (push (.function file.chunk) L)
  | some (status, message) => .ok status.code (push (.string message) L)

/-- Macro `luaL_loadfile(L,f)`, which is `luaL_loadfilex(L,f,NULL)`. -/
def luaL_loadfile (file : ScriptFile) : LuaM ℤ := luaL_loadfilex file

/-- Macro `luaL_dofile(L, fn)`, which is
`(luaL_loadfile(L, fn) || lua_pcall(L, 0, LUA_MULTRET, 0))`: `0` when both succeed and
`1` otherwise, the call being skipped when loading fails. -/
def luaL_dofile (file : ScriptFile) : LuaM ℤ := do
  let loaded ← luaL_loadfile file
  if loaded ≠ 0 then pure 1
  else
    let ran ← lua_pcall file.run 0 LUA_MULTRET 0
    if ran ≠ 0 then pure 1 else pure 0

/-- Behaviour of `lua_getglobal` for a global whose current value is `value`: pushes the
value and returns its type. -/
def lua_getglobal (value : LuaValue) : LuaM ℤ := fun L =>
  .ok value.type (push value (record .lua_getglobal L))

/-- Behaviour of `lua_pushcclosure` without upvalues: pushes the C function. -/
def lua_pushcclosure (fn : ℕ) : LuaM Unit := fun L =>
  .ok () (push (.function fn) (record .lua_pushcclosure L))

/-- Macro `lua_pushcfunction(L,f)`, which is `lua_pushcclosure(L, (f), 0)`. -/
def lua_pushcfunction (fn : ℕ) : LuaM Unit := lua_pushcclosure fn

/-- Behaviour of `lua_setglobal`: pops the value at the top and stores it as a global. -/
def lua_setglobal : LuaM Unit := fun L =>
  let L := record .lua_setglobal L
  match L.stack with
  | _ :: rest => .ok () { L with stack := rest }
  | [] => .fault .apiCheck L

/-- Macro `lua_register(L,n,f)`, which is `(lua_pushcfunction(L, (f)), lua_setglobal(L, (n)))`. -/
def lua_register (fn : ℕ) : LuaM Unit := do
  lua_pushcfunction fn
  lua_setglobal

/-- Behaviour of `luaL_openlibs`: the standard libraries are opened; the stack is left as
it was. -/
def luaL_openlibs : LuaM Unit := fun L =>
  .ok () (record .luaL_openlibs L)

/-- Behaviour of `luaL_error` with the message already formatted: the message is pushed
and raised as a Lua error (`lua_error`); the function never returns to its caller. -/
def luaL_error (message : String) : LuaM ℤ := fun L =>
  .fault .raised (push (.string message) (record .luaL_error L))

/-- Behaviour of `luaL_newstate`: `NULL` (`none`) when memory cannot be allocated,
otherwise a fresh state with an empty stack. -/
def luaL_newstate (host : Host) : Option lua_State :=
  if host.outOfMemory then none
  else some { stack := [], calls := [.luaL_newstate],
              number2str := host.number2str, str2number := host.str2number }

/-- Behaviour of `lua_close`: the state is destroyed. -/
def lua_close (L : lua_State) : lua_State := record .lua_close L

/-! ## Results of the example programs -/

/-- Modelled from the spec: `eae6320::cResult` and the constants of
`eae6320::Results`, declared in `Engine/Results/Results.h`, which is not among the
sources.  A result converts to `true` exactly when it is `Success`. -/
inductive cResult where
  | Success
  | Failure
  | OutOfMemory
  | InvalidFile
  deriving DecidableEq, Repr

/-- Conversion of a result to `bool` (`operator bool`). -/
def cResult.toBool : cResult → Bool
  | .Success => true
  | _ => false

/-- Exit codes of `cstdlib`. -/
def EXIT_SUCCESS : ℤ := 0
def EXIT_FAILURE : ℤ := 1

/-- What is observed of a function that runs to its `return`: the value it returns, the
value `lua_gettop` had in the `EAE6320_ASSERT` at `OnExit` (`none` when the assertion
was not evaluated because there was no state), and the API calls made, most recent
first. -/
structure Report (α : Type) where
  result : α
  gettopAtOnExit : Option ℤ
  calls : List ApiCall

/-- A run of a function: it returns, or the program stops inside it. -/
inductive Run (α : Type) where
  | returned (report : Report α)
  | stopped (f : Fault) (L : lua_State)

/-- The `OnExit` block shared by every function that owns a state:
`if ( luaState ) { EAE6320_ASSERT( lua_gettop( luaState ) == 0 ); lua_close( luaState ); }`
followed by `return result`.  The macro `EAE6320_ASSERT` is declared in
`Engine/Asserts/Asserts.h`, which is not among the sources; the value compared with `0`
is recorded and the function goes on.  With a null state the failed `luaL_newstate` is
the only call that was made. -/
def OnExit {α : Type} (result : α) (luaState : Option lua_State) : Run α :=
  match luaState with
  | none => .returned { result := result, gettopAtOnExit := none, calls := [.luaL_newstate] }
  | some L =>
      match lua_gettop L with
      | .ok top L1 => .returned { result := result, gettopAtOnExit := some top,
                                  calls := (lua_close L1).calls }
      | .fault f L1 => .stopped f L1

/-- Runs the part of a function between the creation of the state and `OnExit`; the value
of the body is the value of `result` (or `exitCode`) with which `OnExit` is reached. -/
def thenOnExit {α : Type} (body : LuaM α) (luaState : lua_State) : Run α :=
  match body luaState with
  | .ok result L => OnExit result (some L)
  | .fault f L => .stopped f L

/-! ## Tables/LoadTableFromFile.cpp -/

/-- Function `LoadAsset_method1`: loads the file with `luaL_dofile`. -/
def LoadAsset_method1 (host : Host) (file : ScriptFile) : Run cResult :=
  -- Create a new Lua state
  match luaL_newstate host with
  | none => OnExit cResult.OutOfMemory none
  | some luaState =>
      thenOnExit (do
        -- Load the asset file into a table at the top of the stack
        let stackTopBeforeLoading ← lua_gettop
        let luaResult ← luaL_dofile file
        if luaResult = LUA_OK then
          -- A well-behaved asset file will only return a single value
          let returnedValueCount := (← lua_gettop) - stackTopBeforeLoading
          if returnedValueCount = 1 then
            -- A correct asset file _must_ return a table
            if !(← lua_istable (-1)) then
              let _ ← luaL_typename (-1)
              -- Pop the returned non-table value
              lua_pop 1
              pure cResult.InvalidFile
            else
              -- the asset file was loaded successfully, and its table is now at index -1
              lua_pop 1
              pure cResult.Success
          else
            -- Pop every value that was returned
            lua_pop returnedValueCount
            pure cResult.InvalidFile
        else
          let _ ← lua_tostring (-1)
          -- Pop the error message
          lua_pop 1
          pure cResult.Failure) luaState

/-- Function `LoadAsset_method2`: loads the file with `luaL_loadfile` and runs the chunk
with `lua_pcall`, asking for one result. -/
def LoadAsset_method2 (host : Host) (file : ScriptFile) : Run cResult :=
  match luaL_newstate host with
  | none => OnExit cResult.OutOfMemory none
  | some luaState =>
      thenOnExit (do
        -- Load the asset file as a "chunk"
        let luaResult ← luaL_loadfile file
        if luaResult ≠ LUA_OK then
          let _ ← lua_tostring (-1)
          -- Pop the error message
          lua_pop 1
          pure cResult.Failure
        else
          -- Execute the "chunk"
          let argumentCount : ℤ := 0
          let returnValueCount : ℤ := 1
          let noErrorHandler : ℤ := 0
          let luaResult ← lua_pcall file.run argumentCount returnValueCount noErrorHandler
          if luaResult = LUA_OK then
            -- A correct asset file _must_ return a table
            if !(← lua_istable (-1)) then
              let _ ← luaL_typename (-1)
              -- Pop the returned non-table value
              lua_pop 1
              pure cResult.InvalidFile
            else
              lua_pop 1
              pure cResult.Success
          else
            let _ ← lua_tostring (-1)
            -- Pop the error message
            lua_pop 1
            pure cResult.InvalidFile) luaState

/-- Function `LoadAsset_hybridMethod`: as method 2, with `LUA_MULTRET` and a check of the
number of returned values.  When `luaL_loadfile` fails the source has the expression
statement `eae6320::Results::Failure;`, which assigns nothing: `result` keeps its
initial value `Success`. -/
def LoadAsset_hybridMethod (host : Host) (file : ScriptFile) : Run cResult :=
  match luaL_newstate host with
  | none => OnExit cResult.OutOfMemory none
  | some luaState =>
      thenOnExit (do
        let stackTopBeforeLoad ← lua_gettop
        let luaResult ← luaL_loadfile file
        if luaResult ≠ LUA_OK then
          let _ ← lua_tostring (-1)
          -- Pop the error message
          lua_pop 1
          pure cResult.Success
        else
          let argumentCount : ℤ := 0
          let returnValueCount : ℤ := LUA_MULTRET
          let noErrorHandler : ℤ := 0
          let luaResult ← lua_pcall file.run argumentCount returnValueCount noErrorHandler
          if luaResult = LUA_OK then
            -- A well-behaved asset file will only return a single value
            let returnedValueCount := (← lua_gettop) - stackTopBeforeLoad
            if returnedValueCount = 1 then
              -- A correct asset file _must_ return a table
              if !(← lua_istable (-1)) then
                let _ ← luaL_typename (-1)
                lua_pop 1
                pure cResult.InvalidFile
              else
                lua_pop 1
                pure cResult.Success
            else
              -- Pop every value that was returned
              lua_pop returnedValueCount
              pure cResult.InvalidFile
          else
            let _ ← lua_tostring (-1)
            -- Pop the error message
            lua_pop 1
            pure cResult.InvalidFile) luaState

/-- Sequencing of runs: the next step is taken when the run returns. -/
def Run.andThen {α β : Type} (r : Run α) (next : Report α → Run β) : Run β :=
  match r with
  | .returned report => next report
  | .stopped f L => .stopped f L

/-- Function `LoadTableFromFile`: the three methods in turn on the same path, stopping at
the first result that is not a success.  The calls of the methods are logged one after
the other (most recent first); no assertion belongs to this function itself. -/
def LoadTableFromFile (host : Host) (file : ScriptFile) : Run cResult :=
  (LoadAsset_method1 host file).andThen fun r1 =>
    if !r1.result.toBool then
      .returned { result := r1.result, gettopAtOnExit := none, calls := r1.calls }
    else
      (LoadAsset_method2 host file).andThen fun r2 =>
        if !r2.result.toBool then
          .returned { result := r2.result, gettopAtOnExit := none, calls := r2.calls ++ r1.calls }
        else
          (LoadAsset_hybridMethod host file).andThen fun r3 =>
            .returned { result := r3.result, gettopAtOnExit := none,
                        calls := r3.calls ++ r2.calls ++ r1.calls }

/-! ## Tables/ReadTopLevelTableValues.cpp -/

namespace ReadTopLevel

/-- Function `LoadTableValues_stringKeys`: reads `"name"` with every check and `"age"`
with none.  On entry the asset table is at index `-1`. -/
def LoadTableValues_stringKeys : LuaM cResult := do
  -- Get the value of "name"
  lua_pushstring "name"
  let _ ← lua_gettable (-2)
  -- First, then, we will make sure that a value (_any_ value) existed for the key
  let isnil ← lua_isnil (-1)
  if isnil then
    lua_pop 1
    pure cResult.InvalidFile
  else
    let type ← lua_type (-1)
    if type ≠ LUA_TSTRING then
      let _ ← luaL_typename (-1)
      -- Pop the value
      lua_pop 1
      pure cResult.InvalidFile
    else
      -- Now we know that the value stored in the table at the key is valid
      let _ ← lua_tostring (-1)
      -- Pop the value
      lua_pop 1
      -- Get the value of "age"
      lua_pushstring "age"
      let _ ← lua_gettable (-2)
      let _ ← lua_tonumber (-1)
      lua_pop 1
      pure cResult.Success

/-- The loop `for ( int i = 1; i <= arrayLength; ++i )` of `LoadTableValues_integerKeys`,
with `remaining = arrayLength - i + 1` iterations to go.  (The counter is an `int`; a
table read from a file has fewer than `2^31` values.) -/
def LoadTableValues_integerKeys_loop : ℕ → ℤ → LuaM cResult
  | 0, _ => pure cResult.Success
  | remaining + 1, i => do
      lua_pushinteger i
      let _ ← lua_gettable (-2)
      let value ← lua_tostring (-1)
      if value.isSome then
        lua_pop 1
        LoadTableValues_integerKeys_loop remaining (i + 1)
      else
        lua_pop 1
        pure cResult.InvalidFile

/-- Function `LoadTableValues_integerKeys`: reads the value at key `1`, then the values
at `1 .. luaL_len`. -/
def LoadTableValues_integerKeys : LuaM cResult := do
  -- Load the first value with an explicit knowledge of its integer key
  let key : ℤ := 1
  lua_pushinteger key
  let _ ← lua_gettable (-2)
  let value ← lua_tostring (-1)
  if value.isSome then
    -- Pop the string
    lua_pop 1
    -- Iterate through all values in the array
    let arrayLength ← luaL_len (-1)
    if arrayLength > 0 then
      LoadTableValues_integerKeys_loop arrayLength.toNat 1
    else
      pure cResult.InvalidFile
  else
    -- Pop the nil
    lua_pop 1
    pure cResult.InvalidFile

/-- The loop `while ( lua_next( &io_luaState, tableIndex ) )` of
`LoadTableValues_allKeys`, with `tableIndex = -2`.  The body converts a key or a value
to a string only when it is a string already. -/
def LoadTableValues_allKeys_loop : ℕ → LuaM cResult
  | 0 => fun L => .fault .outOfFuel L
  | fuel + 1 => do
      let more ← lua_next (-2)
      if more ≠ 0 then
        -- After lua_next() the key is at -2 and the value is at -1
        let keyType ← lua_type (-2)
        let _ ← (if keyType = LUA_TSTRING then (do let _ ← lua_tostring (-2); pure ())
                 else (do let _ ← lua_tonumber (-2); pure ()) : LuaM Unit)
        let valueType ← lua_type (-1)
        let _ ← (if valueType = LUA_TSTRING then (do let _ ← lua_tostring (-1); pure ())
                 else (do let _ ← lua_tonumber (-1); pure ()) : LuaM Unit)
        -- To iterate to the next key/value pair, pop the value, but leave the key
        lua_pop 1
        LoadTableValues_allKeys_loop fuel
      else
        pure cResult.Success

/-- Function `LoadTableValues_allKeys`: visits every pair of the table at index `-1`. -/
def LoadTableValues_allKeys (fuel : ℕ) : LuaM cResult := do
  -- This tells lua_next() to return the first key
  lua_pushnil
  LoadTableValues_allKeys_loop fuel

/-- Function `LoadTableValues`: the three readers in turn, stopping at the first result
that is not a success. -/
def LoadTableValues (fuel : ℕ) : LuaM cResult := do
  let result ← LoadTableValues_stringKeys
  if !result.toBool then pure result
  else
    let result ← LoadTableValues_integerKeys
    if !result.toBool then pure result
    else
      let result ← LoadTableValues_allKeys fuel
      pure result

/-- Function `LoadAsset` of `ReadTopLevelTableValues.cpp`. -/
def LoadAsset (host : Host) (file : ScriptFile) (fuel : ℕ) : Run cResult :=
  -- Create a new Lua state
  match luaL_newstate host with
  | none => OnExit cResult.OutOfMemory none
  | some luaState =>
      thenOnExit (do
        -- Load the asset file as a "chunk"
        let stackTopBeforeLoad ← lua_gettop
        let luaResult ← luaL_loadfile file
        if luaResult ≠ LUA_OK then
          let _ ← lua_tostring (-1)
          -- Pop the error message
          lua_pop 1
          pure cResult.Failure
        else
          -- Execute the "chunk"
          let argumentCount : ℤ := 0
          let returnValueCount : ℤ := LUA_MULTRET
          let noMessageHandler : ℤ := 0
          let luaResult ← lua_pcall file.run argumentCount returnValueCount noMessageHandler
          if luaResult = LUA_OK then
            -- A well-behaved asset file will only return a single value
            let returnedValueCount := (← lua_gettop) - stackTopBeforeLoad
            if returnedValueCount = 1 then
              -- A correct asset file _must_ return a table
              if !(← lua_istable (-1)) then
                let _ ← luaL_typename (-1)
                -- Pop the returned non-table value
                lua_pop 1
                pure cResult.InvalidFile
              else
                -- the asset file was loaded successfully, and its table is now at index -1
                let result ← LoadTableValues fuel
                -- Pop the table
                lua_pop 1
                pure result
            else
              -- Pop every value that was returned
              lua_pop returnedValueCount
              pure cResult.InvalidFile
          else
            let _ ← lua_tostring (-1)
            -- Pop the error message
            lua_pop 1
            pure cResult.InvalidFile) luaState

/-- Function `ReadTopLevelTableValues`. -/
def ReadTopLevelTableValues (host : Host) (file : ScriptFile) (fuel : ℕ) : Run cResult :=
  (LoadAsset host file fuel).andThen fun r =>
    .returned { result := r.result, gettopAtOnExit := none, calls := r.calls }

end ReadTopLevel

/-! ## Tables/ReadNestedTableValues.cpp -/

namespace ReadNested

/-- The loop `for ( int i = 1; i <= textureCount; ++i )` of
`LoadTableValues_textures_paths`, with `remaining = textureCount - i + 1`. -/
def LoadTableValues_textures_paths_loop : ℕ → ℤ → LuaM Unit
  | 0, _ => pure ()
  | remaining + 1, i => do
      lua_pushinteger i
      let _ ← lua_gettable (-2)
      let _ ← lua_tostring (-1)
      lua_pop 1
      LoadTableValues_textures_paths_loop remaining (i + 1)

/-- Function `LoadTableValues_textures_paths`: the textures table is at index `-1`. -/
def LoadTableValues_textures_paths : LuaM cResult := do
  let textureCount ← luaL_len (-1)
  LoadTableValues_textures_paths_loop textureCount.toNat 1
  pure cResult.Success

/-- Function `LoadTableValues_textures`: gets the `"textures"` table and reads it; every
path goes through the `lua_pop` at `OnExit`. -/
def LoadTableValues_textures : LuaM cResult := do
  lua_pushstring "textures"
  let _ ← lua_gettable (-2)
  if (← lua_istable (-1)) then
    let result ← LoadTableValues_textures_paths
    -- OnExit: Pop the textures table
    lua_pop 1
    pure result
  else
    let _ ← luaL_typename (-1)
    -- OnExit: Pop the textures table
    lua_pop 1
    pure cResult.InvalidFile

/-- The loop `while ( lua_next( &io_luaState, -2 ) )` of
`LoadTableValues_parameters_values`.  The body calls `lua_tostring` on the key. -/
def LoadTableValues_parameters_values_loop : ℕ → LuaM cResult
  | 0 => fun L => .fault .outOfFuel L
  | fuel + 1 => do
      let more ← lua_next (-2)
      if more ≠ 0 then
        let _ ← lua_tostring (-2)
        let _ ← lua_tonumber (-1)
        lua_pop 1
        LoadTableValues_parameters_values_loop fuel
      else
        pure cResult.Success

/-- Function `LoadTableValues_parameters_values`: the parameters table is at index `-1`. -/
def LoadTableValues_parameters_values (fuel : ℕ) : LuaM cResult := do
  lua_pushnil
  LoadTableValues_parameters_values_loop fuel

/-- Function `LoadTableValues_parameters`: gets the `"parameters"` table and reads it. -/
def LoadTableValues_parameters (fuel : ℕ) : LuaM cResult := do
  lua_pushstring "parameters"
  let _ ← lua_gettable (-2)
  if (← lua_istable (-1)) then
    let result ← LoadTableValues_parameters_values fuel
    -- OnExit: Pop the parameters table
    lua_pop 1
    pure result
  else
    let _ ← luaL_typename (-1)
    -- OnExit: Pop the parameters table
    lua_pop 1
    pure cResult.InvalidFile

/-- Function `LoadTableValues` of `ReadNestedTableValues.cpp`. -/
def LoadTableValues (fuel : ℕ) : LuaM cResult := do
  let result ← LoadTableValues_textures
  if !result.toBool then pure result
  else
    let result ← LoadTableValues_parameters fuel
    pure result

/-- Function `LoadAsset` of `ReadNestedTableValues.cpp`. -/
def LoadAsset (host : Host) (file : ScriptFile) (fuel : ℕ) : Run cResult :=
  match luaL_newstate host with
  | none => OnExit cResult.OutOfMemory none
  | some luaState =>
      thenOnExit (do
        let stackTopBeforeLoad ← lua_gettop
        let luaResult ← luaL_loadfile file
        if luaResult ≠ LUA_OK then
          let _ ← lua_tostring (-1)
          -- Pop the error message
          lua_pop 1
          pure cResult.Failure
        else
          let argumentCount : ℤ := 0
          let returnValueCount : ℤ := LUA_MULTRET
          let noMessageHandler : ℤ := 0
          let luaResult ← lua_pcall file.run argumentCount returnValueCount noMessageHandler
          if luaResult = LUA_OK then
            let returnedValueCount := (← lua_gettop) - stackTopBeforeLoad
            if returnedValueCount = 1 then
              if !(← lua_istable (-1)) then
                let _ ← luaL_typename (-1)
                -- Pop the returned non-table value
                lua_pop 1
                pure cResult.InvalidFile
              else
                let result ← LoadTableValues fuel
                -- Pop the table
                lua_pop 1
                pure result
            else
              -- Pop every value that was returned
              lua_pop returnedValueCount
              pure cResult.InvalidFile
          else
            let _ ← lua_tostring (-1)
            -- Pop the error message
            lua_pop 1
            pure cResult.InvalidFile) luaState

/-- Function `ReadNestedTableValues`. -/
def ReadNestedTableValues (host : Host) (file : ScriptFile) (fuel : ℕ) : Run cResult :=
  (LoadAsset host file fuel).andThen fun r =>
    .returned { result := r.result, gettopAtOnExit := none, calls := r.calls }

end ReadNested

/-! ## Tables/EntryPoint.cpp -/

namespace Tables

/-- Function `main` of the Tables example.  The three asset files are
`loadTableFromFile.lua`, `readTopLevelTableValues.lua` and `readNestedTableValues.lua`.
The log holds the calls of the functions that were run, most recent first. -/
def main (host : Host) (loadTableFromFile readTopLevelTableValues readNestedTableValues : ScriptFile)
    (fuel : ℕ) : Run ℤ :=
  -- How to load an asset using a Lua table as its file format
  (LoadTableFromFile host loadTableFromFile).andThen fun r1 =>
    if !r1.result.toBool then
      .returned { result := EXIT_FAILURE, gettopAtOnExit := none, calls := r1.calls }
    else
      -- How to read basic values from an asset table
      (ReadTopLevel.ReadTopLevelTableValues host readTopLevelTableValues fuel).andThen fun r2 =>
        if !r2.result.toBool then
          .returned { result := EXIT_FAILURE, gettopAtOnExit := none, calls := r2.calls ++ r1.calls }
        else
          -- How to read tables within an asset table
          (ReadNested.ReadNestedTableValues host readNestedTableValues fuel).andThen fun r3 =>
            if !r3.result.toBool then
              .returned { result := EXIT_FAILURE, gettopAtOnExit := none,
                          calls := r3.calls ++ r2.calls ++ r1.calls }
            else
              .returned { result := EXIT_SUCCESS, gettopAtOnExit := none,
                          calls := r3.calls ++ r2.calls ++ r1.calls }

end Tables

/-! ## StandaloneLuaScript/EntryPoint.cpp -/

namespace StandaloneLuaScript

/-- Function `main` of the StandaloneLuaScript example; `file` is `standaloneScript.lua`. -/
def main (host : Host) (file : ScriptFile) : Run ℤ :=
  -- Create a new Lua state
  match luaL_newstate host with
  | none => OnExit EXIT_FAILURE none
  | some luaState =>
      thenOnExit (do
        -- Open the standard libraries
        luaL_openlibs
        -- Load and run the stand-alone Lua script
        let result ← luaL_dofile file
        if result = LUA_OK then
          pure EXIT_SUCCESS
        else
          -- If there was an error an error message will be at the top of the stack
          let _ ← lua_tostring (-1)
          lua_pop 1
          pure EXIT_FAILURE) luaState

end StandaloneLuaScript

/-! ## CFunctionsFromLua/EntryPoint.cpp -/

namespace CFunctionsFromLua

/-- Function `main` of the CFunctionsFromLua example; `file` is `CFunctionsFromLua.lua`.
The registered C functions `ExampleFunction`, `ExamplePrint`, `ExampleDouble`,
`ExampleAdd`, `ExampleStats`, `ExampleError` and `ExampleErrorChecking` are identified
by the numbers `1` to `7`. -/
def main (host : Host) (file : ScriptFile) : Run ℤ :=
  -- Create a new Lua state
  match luaL_newstate host with
  | none => OnExit EXIT_FAILURE none
  | some luaState =>
      thenOnExit (do
        -- Open the standard libraries
        luaL_openlibs
        -- Make the C/C++ functions available to the Lua state
        lua_register 1
        lua_register 2
        lua_register 3
        lua_register 4
        lua_register 5
        lua_register 6
        lua_register 7
        -- Load and run the Lua script that calls the functions
        let result ← luaL_dofile file
        if result ≠ LUA_OK then
          let _ ← lua_tostring (-1)
          lua_pop 1
          pure EXIT_FAILURE
        else
          pure EXIT_SUCCESS) luaState

/-! The functions below are `lua_CFunction`s: they run on a stack that holds the
arguments of the call, the first argument at index `1`, and return the number of values
they pushed as results. -/

/-- Function `ExampleFunction`: uses no argument and returns no value. -/
def ExampleFunction : LuaM ℤ := do
  let returnValueCount : ℤ := 0
  pure returnValueCount

/-- Function `ExamplePrint`: prints the argument at index `1` as a string. -/
def ExamplePrint : LuaM ℤ := do
  let _ ← lua_tostring 1
  -- This function doesn't return any values
  let returnValueCount : ℤ := 0
  pure returnValueCount

/-- Function `ExampleDouble`: returns the argument at index `1` added to itself. -/
def ExampleDouble (arith : NumberArithmetic) : LuaM ℤ := do
  let i_value ← lua_tonumber 1
  let o_value := arith.add i_value i_value
  lua_pushnumber o_value
  -- And return how many values that we pushed
  let returnValueCount : ℤ := 1
  pure returnValueCount

/-- Function `ExampleAdd`: returns the sum of the arguments at indices `1` and `2`. -/
def ExampleAdd (arith : NumberArithmetic) : LuaM ℤ := do
  let i_value1 ← lua_tonumber 1
  let i_value2 ← lua_tonumber 2
  let o_value := arith.add i_value1 i_value2
  lua_pushnumber o_value
  let returnValueCount : ℤ := 1
  pure returnValueCount

/-- Function `ExampleStats`: returns the sum, the product and the average of the arguments
at indices `1` to `4`, each computed from left to right in the arithmetic of
`lua_Number`. -/
def ExampleStats (arith : NumberArithmetic) : LuaM ℤ := do
  let i_value1 ← lua_tonumber 1
  let i_value2 ← lua_tonumber 2
  let i_value3 ← lua_tonumber 3
  let i_value4 ← lua_tonumber 4
  -- This function has multiple return values
  let o_sum := arith.add (arith.add (arith.add i_value1 i_value2) i_value3) i_value4
  let o_product := arith.mul (arith.mul (arith.mul i_value1 i_value2) i_value3) i_value4
  let o_average := arith.div o_sum 4
  lua_pushnumber o_sum
  lua_pushnumber o_product
  lua_pushnumber o_average
  let returnValueCount : ℤ := 3
  pure returnValueCount

/-- Function `ExampleError`: calls `lua_gettable( io_luaState, 1 )`, which the source
describes as an illegal call that makes Lua throw an error. -/
def ExampleError : LuaM ℤ := do
  let _ ← lua_gettable 1
  let returnValueCount : ℤ := 0
  pure returnValueCount

/-- Function `ExampleErrorChecking`: expects a string as argument `1` and raises an error
with `luaL_error` for anything else.  The format of the message is
`"A %s was incorrectly passed as argument #1 to ExampleErrorChecking() (instead of a string)"`. -/
def ExampleErrorChecking : LuaM ℤ := do
  -- This hypothetical function expects a string for an argument
  let type ← lua_type 1
  if type = LUA_TSTRING then
    let returnValueCount : ℤ := 0
    pure returnValueCount
  else
    let typeName ← lua_typename type
    luaL_error ("A " ++ typeName ++
      " was incorrectly passed as argument #1 to ExampleErrorChecking() (instead of a string)")

end CFunctionsFromLua

/-! ## LuaFunctionsFromC/EntryPoint.cpp -/

namespace LuaFunctionsFromC

/-- A global function as `main` meets it: the value `lua_getglobal` pushes for its name,
and what the call made with it does. -/
structure Callee where
  value : LuaValue
  outcome : CallOutcome

/-- The script `luaFunctionsFromC.lua` as `main` sees it: the file, and the global
functions in the order in which `main` calls them. -/
structure Script where
  file : ScriptFile
  exampleFunction : Callee
  examplePrint1 : Callee
  examplePrint2 : Callee
  exampleDouble : Callee
  exampleAdd : Callee
  exampleStats : Callee
  exampleError : Callee
  exampleErrorChecking1 : Callee
  exampleErrorChecking2 : Callee

/-- Block `ExampleFunction()` of `main`. -/
def blockExampleFunction (callee : Callee) : LuaM Unit := do
  let _ ← lua_getglobal callee.value
  let argumentCount : ℤ := 0
  let returnValueCount : ℤ := 0
  lua_call callee.outcome argumentCount returnValueCount

/-- First block `ExamplePrint()` of `main`, with a string argument. -/
def blockExamplePrint1 (callee : Callee) : LuaM Unit := do
  let _ ← lua_getglobal callee.value
  let argumentCount : ℤ := 1
  lua_pushstring "Example string to print"
  let returnValueCount : ℤ := 0
  lua_call callee.outcome argumentCount returnValueCount

/-- Second block `ExamplePrint()` of `main`, with the number `123.456`. -/
def blockExamplePrint2 (callee : Callee) : LuaM Unit := do
  let _ ← lua_getglobal callee.value
  let argumentCount : ℤ := 1
  lua_pushnumber (123456 / 1000)
  let returnValueCount : ℤ := 0
  lua_call callee.outcome argumentCount returnValueCount

/-- Block `ExampleDouble()` of `main`; the value is `number_doubled`. -/
def blockExampleDouble (callee : Callee) : LuaM ℚ := do
  let _ ← lua_getglobal callee.value
  let argumentCount : ℤ := 1
  lua_pushnumber (1234 / 100)
  let returnValueCount : ℤ := 1
  lua_call callee.outcome argumentCount returnValueCount
  let number_doubled ← lua_tonumber (-1)
  lua_pop returnValueCount
  pure number_doubled

/-- Block `ExampleAdd()` of `main`; the value is `sum`. -/
def blockExampleAdd (callee : Callee) : LuaM ℚ := do
  let _ ← lua_getglobal callee.value
  let argumentCount : ℤ := 2
  lua_pushnumber 1
  lua_pushnumber 2
  let returnValueCount : ℤ := 1
  lua_call callee.outcome argumentCount returnValueCount
  let sum ← lua_tonumber (-1)
  lua_pop returnValueCount
  pure sum

/-- Block `ExampleStats()` of `main`; the value is `(sum, product, average)`. -/
def blockExampleStats (callee : Callee) : LuaM (ℚ × ℚ × ℚ) := do
  let _ ← lua_getglobal callee.value
  let argumentCount : ℤ := 4
  lua_pushnumber (12 / 10)
  lua_pushnumber (34 / 10)
  lua_pushnumber (56 / 10)
  lua_pushnumber (78 / 10)
  let returnValueCount : ℤ := 3
  lua_call callee.outcome argumentCount returnValueCount
  let sum ← lua_tonumber (-3)
  let product ← lua_tonumber (-2)
  let average ← lua_tonumber (-1)
  lua_pop returnValueCount
  pure (sum, product, average)

/-- Block `ExampleError()` of `main`: a protected call without arguments. -/
def blockExampleError (callee : Callee) : LuaM Unit := do
  let _ ← lua_getglobal callee.value
  let argumentCount : ℤ := 0
  let returnValueCount : ℤ := 0
  let noErrorHandler : ℤ := 0
  let result ← lua_pcall callee.outcome argumentCount returnValueCount noErrorHandler
  if result ≠ LUA_OK then
    let _ ← lua_tostring (-1)
    lua_pop 1
  else
    pure ()

/-- First block `ExampleErrorChecking()` of `main`: a protected call with a string. -/
def blockExampleErrorChecking1 (callee : Callee) : LuaM Unit := do
  let _ ← lua_getglobal callee.value
  let argumentCount : ℤ := 1
  lua_pushstring "This is the correct type"
  let returnValueCount : ℤ := 0
  let noErrorHandler : ℤ := 0
  let result ← lua_pcall callee.outcome argumentCount returnValueCount noErrorHandler
  if result ≠ LUA_OK then
    let _ ← lua_tostring (-1)
    lua_pop 1
  else
    pure ()

/-- Second block `ExampleErrorChecking()` of `main`: a protected call with `false`. -/
def blockExampleErrorChecking2 (callee : Callee) : LuaM Unit := do
  let _ ← lua_getglobal callee.value
  let argumentCount : ℤ := 1
  lua_pushboolean false
  let returnValueCount : ℤ := 0
  let noErrorHandler : ℤ := 0
  let result ← lua_pcall callee.outcome argumentCount returnValueCount noErrorHandler
  if result ≠ LUA_OK then
    let _ ← lua_tostring (-1)
    lua_pop 1
  else
    pure ()

/-- The blocks of `main` that follow the loading of the script, in order. -/
def exampleBlocks (script : Script) : LuaM Unit := do
  blockExampleFunction script.exampleFunction
  blockExamplePrint1 script.examplePrint1
  blockExamplePrint2 script.examplePrint2
  let _ ← blockExampleDouble script.exampleDouble
  let _ ← blockExampleAdd script.exampleAdd
  let _ ← blockExampleStats script.exampleStats
  blockExampleError script.exampleError
  blockExampleErrorChecking1 script.exampleErrorChecking1
  blockExampleErrorChecking2 script.exampleErrorChecking2

/-- Function `main` of the LuaFunctionsFromC example. -/
def main (host : Host) (script : Script) : Run ℤ :=
  -- Create a new Lua state
  match luaL_newstate host with
  | none => OnExit EXIT_FAILURE none
  | some luaState =>
      thenOnExit (do
        -- Open the standard libraries
        luaL_openlibs
        -- Load and run the stand-alone Lua script
        let result ← luaL_dofile script.file
        if result ≠ LUA_OK then
          let _ ← lua_tostring (-1)
          lua_pop 1
          pure EXIT_FAILURE
        else
          exampleBlocks script
          pure EXIT_SUCCESS) luaState

end LuaFunctionsFromC

/-! ## The rules for asset files -/

/-- The two rules an asset file must conform to, in the words of `LoadTableFromFile`: "it
must be a single table" and "it must return itself from the file".  For the loading
code this means that the file loads, runs without an error and returns exactly one
value, which is a table. -/
def returnsSingleTable (file : ScriptFile) : Bool :=
  match file.loadError, file.run with
  | none, .returned [v] => v.type == LUA_TTABLE
  | _, _ => false

/-- A host with memory for a new state; the conversions are not used by the inputs it
is applied to. -/
def sampleHost : Host :=
  { outOfMemory := false, number2str := fun _ => "", str2number := fun _ => none }

/-- The status `LUA_ERRRUN`. -/
def LUA_ERRRUN : ErrStatus := ⟨2, by decide⟩

/-- The status `LUA_ERRFILE`. -/
def LUA_ERRFILE : ErrStatus := ⟨7, by decide⟩

/-- An asset file that cannot be opened. -/
def missingFile : ScriptFile :=
  { loadError := some (LUA_ERRFILE, "cannot open loadTableFromFile.lua"), chunk := 0,
    run := .returned [] }

/-- A well-behaved asset file: `return {}`. -/
def emptyTableFile : ScriptFile :=
  { loadError := none, chunk := 0, run := .returned [.table 1 0 []] }

/-- A script that runs without an error and ends with `return 1`. -/
def returnsOneValue : ScriptFile :=
  { loadError := none, chunk := 0, run := .returned [.integer 1] }

/-- Whether `luaL_dofile` gives a result other than `LUA_OK` for the file: it does not
load, or running it raises an error. -/
def ScriptFile.fails (file : ScriptFile) : Bool :=
  match file.loadError, file.run with
  | none, .returned _ => false
  | _, _ => true

/-- Whether the call raises an error. -/
def CallOutcome.raises : CallOutcome → Bool
  | .returned _ => false
  | .raised _ _ => true

/-- No call of `lua_close` has been made on the state. -/
def lua_State.isOpen (L : lua_State) : Prop := ApiCall.lua_close ∉ L.calls

/-- The assumption of the claim about `LuaFunctionsFromC`: every function called with
`lua_call` returns normally. -/
def LuaFunctionsFromC.Script.callsReturn (script : LuaFunctionsFromC.Script) : Bool :=
  !script.exampleFunction.outcome.raises && !script.examplePrint1.outcome.raises &&
  !script.examplePrint2.outcome.raises && !script.exampleDouble.outcome.raises &&
  !script.exampleAdd.outcome.raises && !script.exampleStats.outcome.raises

/-- A script like `luaFunctionsFromC.lua`: the file defines the functions and returns
nothing, the functions called with `lua_call` return what their names promise, and the
functions called with `lua_pcall` raise an error. -/
def sampleScript : LuaFunctionsFromC.Script :=
  { file := { loadError := none, chunk := 0, run := .returned [] }
    exampleFunction := ⟨.function 1, .returned []⟩
    examplePrint1 := ⟨.function 2, .returned []⟩
    examplePrint2 := ⟨.function 2, .returned []⟩
    exampleDouble := ⟨.function 3, .returned [.number (2468 / 100)]⟩
    exampleAdd := ⟨.function 4, .returned [.number 3]⟩
    exampleStats := ⟨.function 5, .returned [.number 18, .number (1782144 / 10000), .number (45 / 10)]⟩
    exampleError := ⟨.function 6, .raised LUA_ERRRUN (.string "attempt to index a nil value")⟩
    exampleErrorChecking1 := ⟨.function 7, .returned []⟩
    exampleErrorChecking2 := ⟨.function 7, .raised LUA_ERRRUN (.string "A boolean was incorrectly passed")⟩ }

/-- A fresh state of the sample host. -/
def sampleState : lua_State :=
  { stack := [], calls := [.luaL_newstate], number2str := sampleHost.number2str,
    str2number := sampleHost.str2number }

/-- An asset file like `readTopLevelTableValues.lua`:
`return { "first", "second", name = "Lua", age = 25 }`. -/
def topLevelFile : ScriptFile :=
  { loadError := none, chunk := 0,
    run := .returned [.table 1 2
      [(.integer 1, .string "first"), (.integer 2, .string "second"),
       (.string "name", .string "Lua"), (.string "age", .integer 25)]] }

/-- An asset file like `readNestedTableValues.lua`:
`return { textures = { "a.png", "b.png" }, parameters = { shininess = 0.5 } }`. -/
def nestedFile : ScriptFile :=
  { loadError := none, chunk := 0,
    run := .returned [.table 1 0
      [(.string "textures", .table 2 2 [(.integer 1, .string "a.png"), (.integer 2, .string "b.png")]),
       (.string "parameters", .table 3 0 [(.string "shininess", .number (1 / 2))])]] }

/-! ## Observations of a run -/

/-- The value a run returns, `none` when the program stops before the `return`. -/
def Run.result? {α : Type} : Run α → Option α
  | .returned r => some r.result
  | .stopped _ _ => none

/-- The value `lua_gettop` has in the assertion at `OnExit`, `none` when the assertion is
not evaluated. -/
def Run.gettop? {α : Type} : Run α → Option ℤ
  | .returned r => r.gettopAtOnExit
  | .stopped _ _ => none

/-- The API calls made in a run, most recent first. -/
def Run.calls {α : Type} : Run α → List ApiCall
  | .returned r => r.calls
  | .stopped _ L => L.calls

/-- The fault with which a run stops, `none` when it returns. -/
def Run.fault? {α : Type} : Run α → Option Fault
  | .returned _ => none
  | .stopped f _ => some f

/-! ## Well-formed tables -/

/-- The invariant of the pairs of a Lua table: no key is `nil`, and no two pairs have
keys that are primitively equal. -/
def wellFormedPairs (pairs : List (LuaValue × LuaValue)) : Prop :=
  (∀ p ∈ pairs, p.1.type ≠ LUA_TNIL) ∧
  pairs.Pairwise (fun p q => luaV_rawequalobj p.1 q.1 = false)

instance (pairs : List (LuaValue × LuaValue)) : Decidable (wellFormedPairs pairs) := by
  unfold wellFormedPairs
  infer_instance

/-! ## Observations of a computation -/

/-- The state in which a computation ends, with or without a fault. -/
def Outcome.state {α : Type} : Outcome α → lua_State
  | .ok _ L => L
  | .fault _ L => L

/-- The fault with which a computation ends, `none` when it runs to its end. -/
def Outcome.fault? {α : Type} : Outcome α → Option Fault
  | .ok _ _ => none
  | .fault f _ => some f

/-- The value of a computation that runs to its end. -/
def Outcome.value? {α : Type} : Outcome α → Option α
  | .ok a _ => some a
  | .fault _ _ => none

/-! ## Creation and destruction of the interpreter -/

/-- The discipline of a function that owns an interpreter: when the function returns,
`lua_close` is the most recent call and was made exactly once if the state was created,
and was never made if it was not; when the program stops inside the function,
`lua_close` was not called. -/
def closesOnce {α : Type} (stateCreated : Bool) (run : Run α) : Prop :=
  (run.fault? = none → stateCreated = true →
    ∃ cs, run.calls = .lua_close :: cs ∧ ApiCall.lua_close ∉ cs) ∧
  (run.fault? = none → stateCreated = false → ApiCall.lua_close ∉ run.calls) ∧
  (run.fault? ≠ none → ApiCall.lua_close ∉ run.calls)

/-- A script like `luaFunctionsFromC.lua` that does not define `ExampleFunction`:
`lua_getglobal` pushes `nil` and the call raises "attempt to call a nil value". -/
def undefinedFunctionScript : LuaFunctionsFromC.Script :=
  { sampleScript with
    exampleFunction := ⟨.nil, .raised LUA_ERRRUN (.string "attempt to call a nil value")⟩ }

/-! ## Argument stacks of the C functions -/

/-- The stack of a call with the single argument `5`. -/
def numberArgument : lua_State := { sampleState with stack := [.integer 5] }

/-- The stack of a call with a single argument, an empty table. -/
def tableArgument : lua_State := { sampleState with stack := [.table 1 0 []] }

/-- A stack with a table like `{ 10 }` at the top: its only key is the number `1`. -/
def numberKeyTable : lua_State :=
  { sampleState with stack := [.table 3 1 [(.integer 1, .integer 10)]] }

/-- An arithmetic for closed examples in which nothing is computed: the operations of
`ℚ`. -/
def exactArithmetic : NumberArithmetic :=
  { add := fun a b => a + b, mul := fun a b => a * b, div := fun a b => a / b }

/-! ## An asset file with a number key in its parameters -/

/-- An asset file whose `"parameters"` table has a number key:
`return { textures = {}, parameters = { 10 } }`. -/
def numberKeyFile : ScriptFile :=
  { loadError := none, chunk := 0,
    run := .returned [.table 1 0
      [(.string "textures", .table 2 0 []),
       (.string "parameters", .table 3 1 [(.integer 1, .integer 10)])]] }

/-- The stack on which `LoadTableValues` is entered for that file: the asset table is the
only value. -/
def numberKeyAsset : lua_State :=
  { sampleState with
    stack := [.table 1 0
      [(.string "textures", .table 2 0 []),
       (.string "parameters", .table 3 1 [(.integer 1, .integer 10)])]] }

/-- The stack with which the program stops inside a function, `none` when the function
returns. -/
def Run.stack? {α : Type} : Run α → Option (List LuaValue)
  | .returned _ => none
  | .stopped _ L => some L.stack

/-! # Properties

Every definition of the development stands above this line; what follows are the lemmas
and the theorems about them. -/

/-! ## Evaluation lemmas -/

@[simp] theorem LuaM.bind_apply {α β : Type} (x : LuaM α) (f : α → LuaM β) (L : lua_State) :
    (x >>= f) L = match x L with
      | .ok a L1 => f a L1
      | .fault e L1 => .fault e L1 := rfl

@[simp] theorem LuaM.pure_apply {α : Type} (a : α) (L : lua_State) :
    (pure a : LuaM α) L = .ok a L := rfl

@[simp] theorem LuaM.ite_apply {α : Type} (c : Prop) [Decidable c] (x y : LuaM α)
    (L : lua_State) : (if c then x else y) L = if c then x L else y L := by
  split <;> rfl

/-- Popping `n` values that are on the stack succeeds and removes exactly them. -/
theorem lua_pop_ok (n : ℤ) (L : lua_State) (h0 : 0 ≤ n) (h : n ≤ L.stack.length) :
    lua_pop n L = .ok () { L with stack := L.stack.drop n.toNat,
                                  calls := .lua_settop (-n - 1) :: L.calls } := by
  have h1 : ¬ (0 ≤ -n - 1) := by omega
  have h2 : (-(-n - 1)).toNat - 1 = n.toNat := by omega
  have h3 : n.toNat ≤ L.stack.length := by omega
  unfold lua_pop lua_settop
  simp only [record]
  rw [if_neg h1, h2, if_pos h3]

theorem ErrStatus.code_ne_zero (st : ErrStatus) : st.code ≠ 0 := st.nonzero

/-! ## The three ways of loading a table -/

/-- Without memory for a state each loading function returns `OutOfMemory` at once. -/
theorem LoadAsset_method1_outOfMemory (host : Host) (file : ScriptFile)
    (h : host.outOfMemory = true) :
    LoadAsset_method1 host file = .returned ⟨.OutOfMemory, none, [.luaL_newstate]⟩ := by
  simp [LoadAsset_method1, luaL_newstate, h, OnExit]

/-- Method 1 on every file: the result, the empty stack at `OnExit` and the one
`lua_close`. -/
theorem LoadAsset_method1_run (host : Host) (file : ScriptFile)
    (h : host.outOfMemory = false) :
    ∃ cs, LoadAsset_method1 host file = .returned
        ⟨(match file.loadError, file.run with
          | some _, _ => cResult.Failure
          | none, .raised _ _ => cResult.Failure
          | none, .returned [v] => if v.type = LUA_TTABLE then cResult.Success else cResult.InvalidFile
          | none, .returned _ => cResult.InvalidFile), some 0, .lua_close :: cs⟩
      ∧ ApiCall.lua_close ∉ cs := by
  obtain ⟨le, ch, run⟩ := file
  rcases le with _ | ⟨st, msg⟩
  · rcases run with vals | ⟨st, err⟩
    · by_cases hlen : vals.length = 1
      · obtain ⟨v, rfl⟩ := List.length_eq_one.mp hlen
        simp [LoadAsset_method1, luaL_newstate, h, thenOnExit, OnExit, luaL_dofile, luaL_loadfile, luaL_loadfilex, lua_gettop, record, push, LUA_OK, lua_tostring, lua_tolstring, index2addr, lua_pop, lua_settop, lua_close, lua_pcall, lua_pcallk, adjustResults, LUA_MULTRET, lua_istable, lua_type, luaL_typename, lua_typename]
        split_ifs <;> simp
      · simp [LoadAsset_method1, luaL_newstate, h, thenOnExit, OnExit, luaL_dofile, luaL_loadfile, luaL_loadfilex, lua_gettop, record, push, LUA_OK, lua_close, lua_pcall, lua_pcallk, adjustResults, LUA_MULTRET, hlen]
        rw [lua_pop_ok _ _ (by omega) (by simp)]
        simp
        refine ⟨_, ⟨?_, rfl⟩, by simp⟩
        split <;> simp_all
    · simp [LoadAsset_method1, luaL_newstate, h, thenOnExit, OnExit, luaL_dofile, luaL_loadfile, luaL_loadfilex, lua_gettop, record, push, st.code_ne_zero, LUA_OK, lua_tostring, lua_tolstring, index2addr, lua_pop, lua_settop, lua_close, lua_pcall, lua_pcallk]
  · simp [LoadAsset_method1, luaL_newstate, h, thenOnExit, OnExit, luaL_dofile, luaL_loadfile, luaL_loadfilex, lua_gettop, record, push, st.code_ne_zero, LUA_OK, lua_tostring, lua_tolstring, index2addr, lua_pop, lua_settop, lua_close]

theorem LoadAsset_method2_outOfMemory (host : Host) (file : ScriptFile)
    (h : host.outOfMemory = true) :
    LoadAsset_method2 host file = .returned ⟨.OutOfMemory, none, [.luaL_newstate]⟩ := by
  simp [LoadAsset_method2, luaL_newstate, h, OnExit]

/-- Method 2 on every file: the result depends on the FIRST returned value only. -/
theorem LoadAsset_method2_run (host : Host) (file : ScriptFile)
    (h : host.outOfMemory = false) :
    ∃ cs, LoadAsset_method2 host file = .returned
        ⟨(match file.loadError, file.run with
          | some _, _ => cResult.Failure
          | none, .raised _ _ => cResult.InvalidFile
          | none, .returned vals =>
              if (vals.headD .nil).type = LUA_TTABLE then cResult.Success else cResult.InvalidFile),
          some 0, .lua_close :: cs⟩
      ∧ ApiCall.lua_close ∉ cs := by
  obtain ⟨le, ch, run⟩ := file
  rcases le with _ | ⟨st, msg⟩
  · rcases run with vals | ⟨st, err⟩
    · rcases vals with _ | ⟨v, rest⟩
      · simp [LoadAsset_method2, luaL_newstate, h, thenOnExit, OnExit, luaL_loadfile, luaL_loadfilex, lua_gettop, record, push, LUA_OK, index2addr, lua_pop, lua_settop, lua_close, lua_pcall, lua_pcallk, adjustResults, LUA_MULTRET, lua_istable, lua_type, luaL_typename, lua_typename, LuaValue.type, LUA_TNIL, LUA_TTABLE]
      · simp [LoadAsset_method2, luaL_newstate, h, thenOnExit, OnExit, luaL_loadfile, luaL_loadfilex, lua_gettop, record, push, LUA_OK, index2addr, lua_pop, lua_settop, lua_close, lua_pcall, lua_pcallk, adjustResults, LUA_MULTRET, lua_istable, lua_type, luaL_typename, lua_typename]
        split_ifs <;> simp
    · simp [LoadAsset_method2, luaL_newstate, h, thenOnExit, OnExit, luaL_loadfile, luaL_loadfilex, lua_gettop, record, push, st.code_ne_zero, LUA_OK, lua_tostring, lua_tolstring, index2addr, lua_pop, lua_settop, lua_close, lua_pcall, lua_pcallk]
  · simp [LoadAsset_method2, luaL_newstate, h, thenOnExit, OnExit, luaL_loadfile, luaL_loadfilex, lua_gettop, record, push, st.code_ne_zero, LUA_OK, lua_tostring, lua_tolstring, index2addr, lua_pop, lua_settop, lua_close]

theorem LoadAsset_hybridMethod_outOfMemory (host : Host) (file : ScriptFile)
    (h : host.outOfMemory = true) :
    LoadAsset_hybridMethod host file = .returned ⟨.OutOfMemory, none, [.luaL_newstate]⟩ := by
  simp [LoadAsset_hybridMethod, luaL_newstate, h, OnExit]

/-- The hybrid method on every file.  A file that fails to load gives `Success`. -/
theorem LoadAsset_hybridMethod_run (host : Host) (file : ScriptFile)
    (h : host.outOfMemory = false) :
    ∃ cs, LoadAsset_hybridMethod host file = .returned
        ⟨(match file.loadError, file.run with
          | some _, _ => cResult.Success
          | none, .raised _ _ => cResult.InvalidFile
          | none, .returned [v] => if v.type = LUA_TTABLE then cResult.Success else cResult.InvalidFile
          | none, .returned _ => cResult.InvalidFile), some 0, .lua_close :: cs⟩
      ∧ ApiCall.lua_close ∉ cs := by
  obtain ⟨le, ch, run⟩ := file
  rcases le with _ | ⟨st, msg⟩
  · rcases run with vals | ⟨st, err⟩
    · by_cases hlen : vals.length = 1
      · obtain ⟨v, rfl⟩ := List.length_eq_one.mp hlen
        simp [LoadAsset_hybridMethod, luaL_newstate, h, thenOnExit, OnExit, luaL_loadfile, luaL_loadfilex, lua_gettop, record, push, LUA_OK, index2addr, lua_pop, lua_settop, lua_close, lua_pcall, lua_pcallk, adjustResults, LUA_MULTRET, lua_istable, lua_type, luaL_typename, lua_typename]
        split_ifs <;> simp
      · simp [LoadAsset_hybridMethod, luaL_newstate, h, thenOnExit, OnExit, luaL_loadfile, luaL_loadfilex, lua_gettop, record, push, LUA_OK, lua_close, lua_pcall, lua_pcallk, adjustResults, LUA_MULTRET, hlen]
        rw [lua_pop_ok _ _ (by omega) (by simp)]
        simp
        refine ⟨_, ⟨?_, rfl⟩, by simp⟩
        split <;> simp_all
    · simp [LoadAsset_hybridMethod, luaL_newstate, h, thenOnExit, OnExit, luaL_loadfile, luaL_loadfilex, lua_gettop, record, push, st.code_ne_zero, LUA_OK, lua_tostring, lua_tolstring, index2addr, lua_pop, lua_settop, lua_close, lua_pcall, lua_pcallk]
  · simp [LoadAsset_hybridMethod, luaL_newstate, h, thenOnExit, OnExit, luaL_loadfile, luaL_loadfilex, lua_gettop, record, push, st.code_ne_zero, LUA_OK, lua_tostring, lua_tolstring, index2addr, lua_pop, lua_settop, lua_close]

/-- States the claim C1: in `LoadAsset_method1`, `LoadAsset_method2` and
`LoadAsset_hybridMethod`, whatever loading and running the file does (a load error, a
run-time error, any number of returned values of any types), the function returns,
and when the state was created `lua_gettop` is `0` in the assertion at `OnExit`;
without a state the assertion is not evaluated. -/
theorem C1_stack_empty_at_OnExit (host : Host) (file : ScriptFile) :
    (∃ r, LoadAsset_method1 host file = .returned r ∧
        r.gettopAtOnExit = if host.outOfMemory then none else some 0) ∧
    (∃ r, LoadAsset_method2 host file = .returned r ∧
        r.gettopAtOnExit = if host.outOfMemory then none else some 0) ∧
    (∃ r, LoadAsset_hybridMethod host file = .returned r ∧
        r.gettopAtOnExit = if host.outOfMemory then none else some 0) := by
  cases h : host.outOfMemory
  · obtain ⟨c1, h1, -⟩ := LoadAsset_method1_run host file h
    obtain ⟨c2, h2, -⟩ := LoadAsset_method2_run host file h
    obtain ⟨c3, h3, -⟩ := LoadAsset_hybridMethod_run host file h
    exact ⟨⟨_, h1, by simp⟩, ⟨_, h2, by simp⟩, ⟨_, h3, by simp⟩⟩
  · exact ⟨⟨_, LoadAsset_method1_outOfMemory host file h, by simp⟩,
      ⟨_, LoadAsset_method2_outOfMemory host file h, by simp⟩,
      ⟨_, LoadAsset_hybridMethod_outOfMemory host file h, by simp⟩⟩

/-- States the claim C5: `LoadTableFromFile` returns, and its result is a success exactly
when a state can be created and the asset file conforms to the two rules (it loads, runs
without an error and returns exactly one value, which is a table); the same file
outcome is met by each of the three loads. -/
theorem C5_LoadTableFromFile_success_iff (host : Host) (file : ScriptFile) :
    ∃ r, LoadTableFromFile host file = .returned r ∧
      (r.result = cResult.Success ↔ (host.outOfMemory = false ∧ returnsSingleTable file = true)) ∧
      r.result.toBool = (!host.outOfMemory && returnsSingleTable file) := by
  cases h : host.outOfMemory
  · obtain ⟨c1, h1, -⟩ := LoadAsset_method1_run host file h
    obtain ⟨c2, h2, -⟩ := LoadAsset_method2_run host file h
    obtain ⟨c3, h3, -⟩ := LoadAsset_hybridMethod_run host file h
    obtain ⟨le, ch, run⟩ := file
    simp only [LoadTableFromFile, h1, h2, h3, Run.andThen]
    rcases le with _ | ⟨st, msg⟩
    · rcases run with vals | ⟨st, err⟩
      · rcases vals with _ | ⟨v, _ | ⟨w, rest⟩⟩
        · simp [cResult.toBool, returnsSingleTable]
        · by_cases hv : v.type = LUA_TTABLE <;> simp [cResult.toBool, returnsSingleTable, hv]
        · simp [cResult.toBool, returnsSingleTable]
      · simp [cResult.toBool, returnsSingleTable]
    · simp [cResult.toBool, returnsSingleTable]
  · simp [LoadTableFromFile, LoadAsset_method1_outOfMemory host file h, Run.andThen,
      cResult.toBool]

/-- Evaluates the code at the failing input of the claim C6: for a file that
`luaL_loadfile` cannot open, `LoadAsset_hybridMethod` returns `Success`, while
`LoadAsset_method2` returns `Failure` for the same file. -/
theorem C6_hybridMethod_ignores_load_failure :
    (∃ r, LoadAsset_hybridMethod sampleHost missingFile = .returned r ∧
        r.result = cResult.Success) ∧
    (∃ r, LoadAsset_method2 sampleHost missingFile = .returned r ∧
        r.result = cResult.Failure) :=
  ⟨⟨_, rfl, rfl⟩, ⟨_, rfl, rfl⟩⟩

/-! ## The two programs that only run a script -/

/-- The result of `luaL_dofile` is `LUA_OK` exactly for the files that do not fail. -/
theorem luaL_dofile_result (file : ScriptFile) (L : lua_State) :
    ∃ L1, luaL_dofile file L = .ok (if file.fails then 1 else 0) L1 := by
  obtain ⟨le, ch, run⟩ := file
  rcases le with _ | ⟨st, msg⟩
  · rcases run with vals | ⟨st, err⟩
    · simp [luaL_dofile, luaL_loadfile, luaL_loadfilex, lua_pcall, lua_pcallk, record, push,
        LUA_OK, ScriptFile.fails]
    · simp [luaL_dofile, luaL_loadfile, luaL_loadfilex, lua_pcall, lua_pcallk, record, push,
        LUA_OK, ScriptFile.fails, st.code_ne_zero]
  · simp [luaL_dofile, luaL_loadfile, luaL_loadfilex, record, push, ScriptFile.fails,
      st.code_ne_zero]

/-- Function `main` of StandaloneLuaScript on every file: the values a successful script
returns stay on the stack until `OnExit`. -/
theorem StandaloneLuaScript.standalone_main_run (host : Host) (file : ScriptFile)
    (h : host.outOfMemory = false) :
    ∃ cs, StandaloneLuaScript.main host file = .returned
        ⟨(if file.fails then EXIT_FAILURE else EXIT_SUCCESS),
         some (match file.loadError, file.run with
               | none, .returned vals => (vals.length : ℤ)
               | _, _ => 0),
         [.lua_close, .lua_gettop] ++
           (if file.fails then [.lua_settop (-2), .lua_tolstring (-1)] else []) ++ cs⟩
      ∧ ApiCall.lua_close ∉ cs ∧ (∀ i, ApiCall.lua_settop i ∉ cs)
      ∧ (∀ i, ApiCall.lua_tolstring i ∉ cs) := by
  obtain ⟨le, ch, run⟩ := file
  rcases le with _ | ⟨st, msg⟩
  · rcases run with vals | ⟨st, err⟩
    · simp [StandaloneLuaScript.main, luaL_newstate, h, thenOnExit, OnExit, luaL_openlibs,
        luaL_dofile, luaL_loadfile, luaL_loadfilex, lua_gettop, record, push, LUA_OK, lua_close,
        lua_pcall, lua_pcallk, adjustResults, LUA_MULTRET, ScriptFile.fails]
    · simp [StandaloneLuaScript.main, luaL_newstate, h, thenOnExit, OnExit, luaL_openlibs,
        luaL_dofile, luaL_loadfile, luaL_loadfilex, lua_gettop, record, push, LUA_OK, lua_close,
        lua_pcall, lua_pcallk, st.code_ne_zero, lua_tostring, lua_tolstring, index2addr, lua_pop,
        lua_settop, ScriptFile.fails]
  · simp [StandaloneLuaScript.main, luaL_newstate, h, thenOnExit, OnExit, luaL_openlibs,
      luaL_dofile, luaL_loadfile, luaL_loadfilex, lua_gettop, record, push, LUA_OK, lua_close,
      st.code_ne_zero, lua_tostring, lua_tolstring, index2addr, lua_pop, lua_settop,
      ScriptFile.fails]

/-- Function `main` of CFunctionsFromLua on every file. -/
theorem CFunctionsFromLua.cfunctions_main_run (host : Host) (file : ScriptFile)
    (h : host.outOfMemory = false) :
    ∃ cs, CFunctionsFromLua.main host file = .returned
        ⟨(if file.fails then EXIT_FAILURE else EXIT_SUCCESS),
         some (match file.loadError, file.run with
               | none, .returned vals => (vals.length : ℤ)
               | _, _ => 0),
         [.lua_close, .lua_gettop] ++
           (if file.fails then [.lua_settop (-2), .lua_tolstring (-1)] else []) ++ cs⟩
      ∧ ApiCall.lua_close ∉ cs ∧ (∀ i, ApiCall.lua_settop i ∉ cs)
      ∧ (∀ i, ApiCall.lua_tolstring i ∉ cs) := by
  obtain ⟨le, ch, run⟩ := file
  rcases le with _ | ⟨st, msg⟩
  · rcases run with vals | ⟨st, err⟩
    · simp [CFunctionsFromLua.main, luaL_newstate, h, thenOnExit, OnExit, luaL_openlibs,
        lua_register, lua_pushcfunction, lua_pushcclosure, lua_setglobal,
        luaL_dofile, luaL_loadfile, luaL_loadfilex, lua_gettop, record, push, LUA_OK, lua_close,
        lua_pcall, lua_pcallk, adjustResults, LUA_MULTRET, ScriptFile.fails]
    · simp [CFunctionsFromLua.main, luaL_newstate, h, thenOnExit, OnExit, luaL_openlibs,
        lua_register, lua_pushcfunction, lua_pushcclosure, lua_setglobal,
        luaL_dofile, luaL_loadfile, luaL_loadfilex, lua_gettop, record, push, LUA_OK, lua_close,
        lua_pcall, lua_pcallk, st.code_ne_zero, lua_tostring, lua_tolstring, index2addr, lua_pop,
        lua_settop, ScriptFile.fails]
  · simp [CFunctionsFromLua.main, luaL_newstate, h, thenOnExit, OnExit, luaL_openlibs,
      lua_register, lua_pushcfunction, lua_pushcclosure, lua_setglobal,
      luaL_dofile, luaL_loadfile, luaL_loadfilex, lua_gettop, record, push, LUA_OK, lua_close,
      st.code_ne_zero, lua_tostring, lua_tolstring, index2addr, lua_pop, lua_settop,
      ScriptFile.fails]

theorem StandaloneLuaScript.standalone_main_outOfMemory (host : Host) (file : ScriptFile)
    (h : host.outOfMemory = true) :
    StandaloneLuaScript.main host file = .returned ⟨EXIT_FAILURE, none, [.luaL_newstate]⟩ := by
  simp [StandaloneLuaScript.main, luaL_newstate, h, OnExit]

theorem CFunctionsFromLua.cfunctions_main_outOfMemory (host : Host) (file : ScriptFile)
    (h : host.outOfMemory = true) :
    CFunctionsFromLua.main host file = .returned ⟨EXIT_FAILURE, none, [.luaL_newstate]⟩ := by
  simp [CFunctionsFromLua.main, luaL_newstate, h, OnExit]

/-- Evaluates the code at the failing input of the claim C2: when the script runs without
an error and returns one value, `luaL_dofile` leaves that value on the stack and neither
`main` removes it, so `lua_gettop` is `1`, not `0`, in the assertion at `OnExit`. -/
theorem C2_returned_values_stay_on_the_stack :
    (∃ r, StandaloneLuaScript.main sampleHost returnsOneValue = .returned r ∧
        r.gettopAtOnExit = some 1) ∧
    (∃ r, CFunctionsFromLua.main sampleHost returnsOneValue = .returned r ∧
        r.gettopAtOnExit = some 1) :=
  ⟨⟨_, rfl, rfl⟩, ⟨_, rfl, rfl⟩⟩

/-- States the claim C8: in the `main` of StandaloneLuaScript and of CFunctionsFromLua the
exit code is `EXIT_FAILURE` exactly when `luaL_newstate` gave no state or `luaL_dofile`
gave a result other than `LUA_OK` (which it does exactly for the files that fail); and
after such a result the only calls made before the `OnExit` block are the read of the
error message at index `-1` and the pop of one value, which empties the stack. -/
theorem C8_exit_code_and_error_message (host : Host) (file : ScriptFile) :
    (∀ L, ∃ L1, luaL_dofile file L = .ok (if file.fails then 1 else LUA_OK) L1) ∧
    (∃ r, StandaloneLuaScript.main host file = .returned r ∧
      (r.result = EXIT_FAILURE ↔ (host.outOfMemory = true ∨ file.fails = true)) ∧
      (r.result = EXIT_FAILURE ∨ r.result = EXIT_SUCCESS) ∧
      (if host.outOfMemory = false ∧ file.fails = true then
        r.gettopAtOnExit = some 0 ∧
        ∃ before, r.calls =
            [.lua_close, .lua_gettop, .lua_settop (-2), .lua_tolstring (-1)] ++ before ∧
          (∀ i, ApiCall.lua_settop i ∉ before) ∧ (∀ i, ApiCall.lua_tolstring i ∉ before)
       else (∀ i, ApiCall.lua_settop i ∉ r.calls) ∧ (∀ i, ApiCall.lua_tolstring i ∉ r.calls))) ∧
    (∃ r, CFunctionsFromLua.main host file = .returned r ∧
      (r.result = EXIT_FAILURE ↔ (host.outOfMemory = true ∨ file.fails = true)) ∧
      (r.result = EXIT_FAILURE ∨ r.result = EXIT_SUCCESS) ∧
      (if host.outOfMemory = false ∧ file.fails = true then
        r.gettopAtOnExit = some 0 ∧
        ∃ before, r.calls =
            [.lua_close, .lua_gettop, .lua_settop (-2), .lua_tolstring (-1)] ++ before ∧
          (∀ i, ApiCall.lua_settop i ∉ before) ∧ (∀ i, ApiCall.lua_tolstring i ∉ before)
       else (∀ i, ApiCall.lua_settop i ∉ r.calls) ∧ (∀ i, ApiCall.lua_tolstring i ∉ r.calls))) := by
  refine ⟨fun L => ?_, ?_, ?_⟩
  · simpa [LUA_OK] using luaL_dofile_result file L
  · cases h : host.outOfMemory
    · obtain ⟨cs, hrun, hc, hs, ht⟩ := StandaloneLuaScript.standalone_main_run host file h
      refine ⟨_, hrun, ?_⟩
      cases hf : file.fails
      · simp [EXIT_FAILURE, EXIT_SUCCESS, hs, ht]
      · obtain ⟨le, ch, run⟩ := file
        rcases le with _ | ⟨st, msg⟩
        · rcases run with vals | ⟨st, err⟩
          · simp [ScriptFile.fails] at hf
          · simp [EXIT_FAILURE, EXIT_SUCCESS, hs, ht]
        · simp [EXIT_FAILURE, EXIT_SUCCESS, hs, ht]
    · refine ⟨_, StandaloneLuaScript.standalone_main_outOfMemory host file h, ?_⟩
      simp [EXIT_FAILURE, EXIT_SUCCESS]
  · cases h : host.outOfMemory
    · obtain ⟨cs, hrun, hc, hs, ht⟩ := CFunctionsFromLua.cfunctions_main_run host file h
      refine ⟨_, hrun, ?_⟩
      cases hf : file.fails
      · simp [EXIT_FAILURE, EXIT_SUCCESS, hs, ht]
      · obtain ⟨le, ch, run⟩ := file
        rcases le with _ | ⟨st, msg⟩
        · rcases run with vals | ⟨st, err⟩
          · simp [ScriptFile.fails] at hf
          · simp [EXIT_FAILURE, EXIT_SUCCESS, hs, ht]
        · simp [EXIT_FAILURE, EXIT_SUCCESS, hs, ht]
    · refine ⟨_, CFunctionsFromLua.cfunctions_main_outOfMemory host file h, ?_⟩
      simp [EXIT_FAILURE, EXIT_SUCCESS]

/-! ## Calling Lua functions from C -/

namespace LuaFunctionsFromC

theorem blockExampleFunction_spec (callee : Callee) (L : lua_State) :
    match blockExampleFunction callee L with
    | .ok _ L1 => callee.outcome.raises = false ∧ L1.stack = L.stack ∧ (L.isOpen → L1.isOpen)
    | .fault f L1 => f = .raised ∧ callee.outcome.raises = true ∧ (L.isOpen → L1.isOpen) := by
  obtain ⟨g, o⟩ := callee
  rcases o with vals | ⟨st, err⟩
  · simp [blockExampleFunction, lua_getglobal, lua_call, lua_callk, record, push, adjustResults,
      LUA_MULTRET, lua_State.isOpen, CallOutcome.raises]
  · simp [blockExampleFunction, lua_getglobal, lua_call, lua_callk, record, push,
      lua_State.isOpen, CallOutcome.raises]

theorem blockExamplePrint1_spec (callee : Callee) (L : lua_State) :
    match blockExamplePrint1 callee L with
    | .ok _ L1 => callee.outcome.raises = false ∧ L1.stack = L.stack ∧ (L.isOpen → L1.isOpen)
    | .fault f L1 => f = .raised ∧ callee.outcome.raises = true ∧ (L.isOpen → L1.isOpen) := by
  obtain ⟨g, o⟩ := callee
  rcases o with vals | ⟨st, err⟩
  · simp [blockExamplePrint1, lua_getglobal, lua_pushstring, lua_call, lua_callk, record, push,
      adjustResults, LUA_MULTRET, lua_State.isOpen, CallOutcome.raises]
  · simp [blockExamplePrint1, lua_getglobal, lua_pushstring, lua_call, lua_callk, record, push,
      lua_State.isOpen, CallOutcome.raises]

theorem blockExamplePrint2_spec (callee : Callee) (L : lua_State) :
    match blockExamplePrint2 callee L with
    | .ok _ L1 => callee.outcome.raises = false ∧ L1.stack = L.stack ∧ (L.isOpen → L1.isOpen)
    | .fault f L1 => f = .raised ∧ callee.outcome.raises = true ∧ (L.isOpen → L1.isOpen) := by
  obtain ⟨g, o⟩ := callee
  rcases o with vals | ⟨st, err⟩
  · simp [blockExamplePrint2, lua_getglobal, lua_pushnumber, lua_call, lua_callk, record, push,
      adjustResults, LUA_MULTRET, lua_State.isOpen, CallOutcome.raises]
  · simp [blockExamplePrint2, lua_getglobal, lua_pushnumber, lua_call, lua_callk, record, push,
      lua_State.isOpen, CallOutcome.raises]

theorem blockExampleDouble_spec (callee : Callee) (L : lua_State) :
    match blockExampleDouble callee L with
    | .ok _ L1 => callee.outcome.raises = false ∧ L1.stack = L.stack ∧ (L.isOpen → L1.isOpen)
    | .fault f L1 => f = .raised ∧ callee.outcome.raises = true ∧ (L.isOpen → L1.isOpen) := by
  obtain ⟨g, o⟩ := callee
  rcases o with vals | ⟨st, err⟩
  · rcases vals with _ | ⟨v, rest⟩ <;>
    simp [blockExampleDouble, lua_getglobal, lua_pushnumber, lua_call, lua_callk, record, push,
      adjustResults, LUA_MULTRET, lua_State.isOpen, CallOutcome.raises, lua_tonumber,
      lua_tonumberx, index2addr, lua_pop, lua_settop]
  · simp [blockExampleDouble, lua_getglobal, lua_pushnumber, lua_call, lua_callk, record, push,
      lua_State.isOpen, CallOutcome.raises]

theorem blockExampleAdd_spec (callee : Callee) (L : lua_State) :
    match blockExampleAdd callee L with
    | .ok _ L1 => callee.outcome.raises = false ∧ L1.stack = L.stack ∧ (L.isOpen → L1.isOpen)
    | .fault f L1 => f = .raised ∧ callee.outcome.raises = true ∧ (L.isOpen → L1.isOpen) := by
  obtain ⟨g, o⟩ := callee
  rcases o with vals | ⟨st, err⟩
  · rcases vals with _ | ⟨v, rest⟩ <;>
    simp [blockExampleAdd, lua_getglobal, lua_pushnumber, lua_call, lua_callk, record, push,
      adjustResults, LUA_MULTRET, lua_State.isOpen, CallOutcome.raises, lua_tonumber,
      lua_tonumberx, index2addr, lua_pop, lua_settop]
  · simp [blockExampleAdd, lua_getglobal, lua_pushnumber, lua_call, lua_callk, record, push,
      lua_State.isOpen, CallOutcome.raises]

theorem blockExampleStats_spec (callee : Callee) (L : lua_State) :
    match blockExampleStats callee L with
    | .ok _ L1 => callee.outcome.raises = false ∧ L1.stack = L.stack ∧ (L.isOpen → L1.isOpen)
    | .fault f L1 => f = .raised ∧ callee.outcome.raises = true ∧ (L.isOpen → L1.isOpen) := by
  obtain ⟨g, o⟩ := callee
  rcases o with vals | ⟨st, err⟩
  · rcases vals with _ | ⟨v1, _ | ⟨v2, _ | ⟨v3, rest⟩⟩⟩ <;>
    simp [blockExampleStats, lua_getglobal, lua_pushnumber, lua_call, lua_callk, record, push,
      adjustResults, LUA_MULTRET, lua_State.isOpen, CallOutcome.raises, lua_tonumber,
      lua_tonumberx, index2addr, lua_pop, lua_settop]
  · simp [blockExampleStats, lua_getglobal, lua_pushnumber, lua_call, lua_callk, record, push,
      lua_State.isOpen, CallOutcome.raises]

theorem blockExampleError_spec (callee : Callee) (L : lua_State) :
    ∃ L1, blockExampleError callee L = .ok () L1 ∧ L1.stack = L.stack ∧
      (L.isOpen → L1.isOpen) := by
  obtain ⟨g, o⟩ := callee
  rcases o with vals | ⟨st, err⟩
  · simp [blockExampleError, lua_getglobal, lua_pcall, lua_pcallk, record, push, adjustResults,
      LUA_MULTRET, lua_State.isOpen, LUA_OK]
  · simp [blockExampleError, lua_getglobal, lua_pcall, lua_pcallk, record, push,
      lua_State.isOpen, LUA_OK, st.code_ne_zero, lua_tostring, lua_tolstring, index2addr, lua_pop,
      lua_settop]

theorem blockExampleErrorChecking1_spec (callee : Callee) (L : lua_State) :
    ∃ L1, blockExampleErrorChecking1 callee L = .ok () L1 ∧ L1.stack = L.stack ∧
      (L.isOpen → L1.isOpen) := by
  obtain ⟨g, o⟩ := callee
  rcases o with vals | ⟨st, err⟩
  · simp [blockExampleErrorChecking1, lua_getglobal, lua_pushstring, lua_pcall, lua_pcallk,
      record, push, adjustResults, LUA_MULTRET, lua_State.isOpen, LUA_OK]
  · simp [blockExampleErrorChecking1, lua_getglobal, lua_pushstring, lua_pcall, lua_pcallk,
      record, push, lua_State.isOpen, LUA_OK, st.code_ne_zero, lua_tostring, lua_tolstring,
      index2addr, lua_pop, lua_settop]

theorem blockExampleErrorChecking2_spec (callee : Callee) (L : lua_State) :
    ∃ L1, blockExampleErrorChecking2 callee L = .ok () L1 ∧ L1.stack = L.stack ∧
      (L.isOpen → L1.isOpen) := by
  obtain ⟨g, o⟩ := callee
  rcases o with vals | ⟨st, err⟩
  · simp [blockExampleErrorChecking2, lua_getglobal, lua_pushboolean, lua_pcall, lua_pcallk,
      record, push, adjustResults, LUA_MULTRET, lua_State.isOpen, LUA_OK]
  · simp [blockExampleErrorChecking2, lua_getglobal, lua_pushboolean, lua_pcall, lua_pcallk,
      record, push, lua_State.isOpen, LUA_OK, st.code_ne_zero, lua_tostring, lua_tolstring,
      index2addr, lua_pop, lua_settop]

end LuaFunctionsFromC

namespace LuaFunctionsFromC

/-- The example blocks together: they run to the end exactly when every function called
with `lua_call` returns, and then the stack is as it was before the first block. -/
theorem exampleBlocks_spec (script : Script) (L : lua_State) :
    match exampleBlocks script L with
    | .ok _ L1 => script.callsReturn = true ∧ L1.stack = L.stack ∧ (L.isOpen → L1.isOpen)
    | .fault f L1 => f = .raised ∧ script.callsReturn = false ∧ (L.isOpen → L1.isOpen) := by
  unfold exampleBlocks
  simp only [LuaM.bind_apply]
  have h1 := blockExampleFunction_spec script.exampleFunction L
  split at h1
  case h_2 f L1 e1 => rw [e1]; simp [Script.callsReturn, h1]; tauto
  case h_1 u1 L1 e1 =>
  rw [e1]; dsimp only
  have h2 := blockExamplePrint1_spec script.examplePrint1 L1
  split at h2
  case h_2 f L2 e2 => rw [e2]; simp [Script.callsReturn, h2]; tauto
  case h_1 u2 L2 e2 =>
  rw [e2]; dsimp only
  have h3 := blockExamplePrint2_spec script.examplePrint2 L2
  split at h3
  case h_2 f L3 e3 => rw [e3]; simp [Script.callsReturn, h3]; tauto
  case h_1 u3 L3 e3 =>
  rw [e3]; dsimp only
  have h4 := blockExampleDouble_spec script.exampleDouble L3
  split at h4
  case h_2 f L4 e4 => rw [e4]; simp [Script.callsReturn, h4]; tauto
  case h_1 u4 L4 e4 =>
  rw [e4]; dsimp only
  have h5 := blockExampleAdd_spec script.exampleAdd L4
  split at h5
  case h_2 f L5 e5 => rw [e5]; simp [Script.callsReturn, h5]; tauto
  case h_1 u5 L5 e5 =>
  rw [e5]; dsimp only
  have h6 := blockExampleStats_spec script.exampleStats L5
  split at h6
  case h_2 f L6 e6 => rw [e6]; simp [Script.callsReturn, h6]; tauto
  case h_1 u6 L6 e6 =>
  rw [e6]; dsimp only
  obtain ⟨L7, e7, s7, o7⟩ := blockExampleError_spec script.exampleError L6
  obtain ⟨L8, e8, s8, o8⟩ := blockExampleErrorChecking1_spec script.exampleErrorChecking1 L7
  obtain ⟨L9, e9, s9, o9⟩ := blockExampleErrorChecking2_spec script.exampleErrorChecking2 L8
  rw [e7]; dsimp only; rw [e8]; dsimp only; rw [e9]; dsimp only
  refine ⟨by simp [Script.callsReturn, h1, h2, h3, h4, h5, h6], ?_, by tauto⟩
  rw [s9, s8, s7, h6.2.1, h5.2.1, h4.2.1, h3.2.1, h2.2.1, h1.2.1]

theorem callLua_main_outOfMemory (host : Host) (script : Script) (h : host.outOfMemory = true) :
    main host script = .returned ⟨EXIT_FAILURE, none, [.luaL_newstate]⟩ := by
  simp [main, luaL_newstate, h, OnExit]

/-- Function `main` of LuaFunctionsFromC on every script: it returns unless a function
called with `lua_call` raises an error, in which case the program stops with the state
still open. -/
theorem callLua_main_spec (host : Host) (script : Script) (h : host.outOfMemory = false) :
    match main host script with
    | .returned r =>
        (script.file.fails = true ∨ script.callsReturn = true) ∧
        r.result = (if script.file.fails then EXIT_FAILURE else EXIT_SUCCESS) ∧
        r.gettopAtOnExit = some (match script.file.loadError, script.file.run with
                                 | none, .returned vals => (vals.length : ℤ)
                                 | _, _ => 0) ∧
        ∃ cs, r.calls = .lua_close :: cs ∧ ApiCall.lua_close ∉ cs
    | .stopped f L =>
        f = .raised ∧ script.file.fails = false ∧ script.callsReturn = false ∧ L.isOpen := by
  rcases hfile : script.file with ⟨le, ch, run⟩
  rcases le with _ | ⟨st, msg⟩
  · rcases run with vals | ⟨st, err⟩
    · have hb := exampleBlocks_spec script
        ⟨vals.reverse, [.lua_pcallk 0 (-1), .luaL_loadfilex, .luaL_openlibs, .luaL_newstate],
          host.number2str, host.str2number⟩
      simp only [main, luaL_newstate, h, thenOnExit, luaL_openlibs, luaL_dofile, luaL_loadfile,
        luaL_loadfilex, record, push, LUA_OK, lua_pcall, lua_pcallk, adjustResults, LUA_MULTRET,
        ScriptFile.fails, hfile, LuaM.bind_apply, LuaM.pure_apply, LuaM.ite_apply]
      simp
      split at hb
      · rename_i u L1 e1
        rw [e1]
        simp [lua_State.isOpen] at hb
        simp [OnExit, lua_gettop, lua_close, record, hb]
      · rename_i f L1 e1
        rw [e1]
        simp [lua_State.isOpen] at hb
        simpa using hb
    · simp [main, luaL_newstate, h, thenOnExit, OnExit, luaL_openlibs,
        luaL_dofile, luaL_loadfile, luaL_loadfilex, lua_gettop, record, push, LUA_OK, lua_close,
        lua_pcall, lua_pcallk, st.code_ne_zero, lua_tostring, lua_tolstring, index2addr, lua_pop,
        lua_settop, ScriptFile.fails, hfile, EXIT_FAILURE]
  · simp [main, luaL_newstate, h, thenOnExit, OnExit, luaL_openlibs,
      luaL_dofile, luaL_loadfile, luaL_loadfilex, lua_gettop, record, push, LUA_OK, lua_close,
      st.code_ne_zero, lua_tostring, lua_tolstring, index2addr, lua_pop, lua_settop,
      ScriptFile.fails, hfile, EXIT_FAILURE]

end LuaFunctionsFromC

/-- States the claim C3: in the `main` of LuaFunctionsFromC, when every function called with
`lua_call` returns normally, each example block started on any stack ends with the
stack it started with (so with the same depth), whatever the protected calls do; and
when moreover the script was loaded and left the stack empty, `main` returns and
`lua_gettop` is `0` in the assertion at `OnExit`. -/
theorem C3_example_blocks_keep_the_stack (host : Host) (script : LuaFunctionsFromC.Script)
    (L : lua_State) (hcalls : script.callsReturn = true) :
    (∃ L1, LuaFunctionsFromC.blockExampleFunction script.exampleFunction L = .ok () L1 ∧
      L1.stack = L.stack) ∧
    (∃ L1, LuaFunctionsFromC.blockExamplePrint1 script.examplePrint1 L = .ok () L1 ∧
      L1.stack = L.stack) ∧
    (∃ L1, LuaFunctionsFromC.blockExamplePrint2 script.examplePrint2 L = .ok () L1 ∧
      L1.stack = L.stack) ∧
    (∃ v L1, LuaFunctionsFromC.blockExampleDouble script.exampleDouble L = .ok v L1 ∧
      L1.stack = L.stack) ∧
    (∃ v L1, LuaFunctionsFromC.blockExampleAdd script.exampleAdd L = .ok v L1 ∧
      L1.stack = L.stack) ∧
    (∃ v L1, LuaFunctionsFromC.blockExampleStats script.exampleStats L = .ok v L1 ∧
      L1.stack = L.stack) ∧
    (∃ L1, LuaFunctionsFromC.blockExampleError script.exampleError L = .ok () L1 ∧
      L1.stack = L.stack) ∧
    (∃ L1, LuaFunctionsFromC.blockExampleErrorChecking1 script.exampleErrorChecking1 L
        = .ok () L1 ∧ L1.stack = L.stack) ∧
    (∃ L1, LuaFunctionsFromC.blockExampleErrorChecking2 script.exampleErrorChecking2 L
        = .ok () L1 ∧ L1.stack = L.stack) ∧
    (host.outOfMemory = false → script.file.loadError = none →
      script.file.run = .returned [] →
      ∃ r, LuaFunctionsFromC.main host script = .returned r ∧ r.gettopAtOnExit = some 0) := by
  simp only [LuaFunctionsFromC.Script.callsReturn, Bool.and_eq_true, Bool.not_eq_true'] at hcalls
  obtain ⟨⟨⟨⟨⟨c1, c2⟩, c3⟩, c4⟩, c5⟩, c6⟩ := hcalls
  refine ⟨?_, ?_, ?_, ?_, ?_, ?_, ?_, ?_, ?_, ?_⟩
  · have hs := LuaFunctionsFromC.blockExampleFunction_spec script.exampleFunction L
    split at hs
    · exact ⟨_, ‹_›, hs.2.1⟩
    · simp [c1] at hs
  · have hs := LuaFunctionsFromC.blockExamplePrint1_spec script.examplePrint1 L
    split at hs
    · exact ⟨_, ‹_›, hs.2.1⟩
    · simp [c2] at hs
  · have hs := LuaFunctionsFromC.blockExamplePrint2_spec script.examplePrint2 L
    split at hs
    · exact ⟨_, ‹_›, hs.2.1⟩
    · simp [c3] at hs
  · have hs := LuaFunctionsFromC.blockExampleDouble_spec script.exampleDouble L
    split at hs
    · exact ⟨_, _, ‹_›, hs.2.1⟩
    · simp [c4] at hs
  · have hs := LuaFunctionsFromC.blockExampleAdd_spec script.exampleAdd L
    split at hs
    · exact ⟨_, _, ‹_›, hs.2.1⟩
    · simp [c5] at hs
  · have hs := LuaFunctionsFromC.blockExampleStats_spec script.exampleStats L
    split at hs
    · exact ⟨_, _, ‹_›, hs.2.1⟩
    · simp [c6] at hs
  · obtain ⟨L1, e, s, -⟩ := LuaFunctionsFromC.blockExampleError_spec script.exampleError L
    exact ⟨L1, e, s⟩
  · obtain ⟨L1, e, s, -⟩ :=
      LuaFunctionsFromC.blockExampleErrorChecking1_spec script.exampleErrorChecking1 L
    exact ⟨L1, e, s⟩
  · obtain ⟨L1, e, s, -⟩ :=
      LuaFunctionsFromC.blockExampleErrorChecking2_spec script.exampleErrorChecking2 L
    exact ⟨L1, e, s⟩
  · intro hmem hload hrun
    have hm := LuaFunctionsFromC.callLua_main_spec host script hmem
    split at hm
    · rename_i r e
      refine ⟨r, e, ?_⟩
      rw [hm.2.2.1, hload, hrun]
      rfl
    · have : script.callsReturn = true := by
        simp [LuaFunctionsFromC.Script.callsReturn, c1, c2, c3, c4, c5, c6]
      simp [this] at hm

/-- Witness for C3: a script whose functions all return, run from an empty stack. -/
theorem C3_example_blocks_keep_the_stack_witness :
    sampleScript.callsReturn = true ∧
    ∃ r, LuaFunctionsFromC.main sampleHost sampleScript = .returned r ∧
      r.gettopAtOnExit = some 0 :=
  ⟨rfl, (C3_example_blocks_keep_the_stack sampleHost sampleScript sampleState rfl).2.2.2.2.2.2.2.2.2
    rfl rfl rfl⟩

/-! ## The entry point of the Tables example -/

/-- States the claim C9: the `main` of the Tables example returns `EXIT_SUCCESS` exactly when
`LoadTableFromFile`, `ReadTopLevelTableValues` and `ReadNestedTableValues` all return
`Success`.  They run in this order: when one of them returns another result, `main`
returns `EXIT_FAILURE` and its call log holds the calls of the functions up to that
one only, so that none of the later functions was run. -/
theorem C9_Tables_main_exit_code (host : Host) (f1 f2 f3 : ScriptFile) (fuel : ℕ) :
    ((Tables.main host f1 f2 f3 fuel).result? = some EXIT_SUCCESS ↔
      (LoadTableFromFile host f1).result? = some cResult.Success ∧
      (ReadTopLevel.ReadTopLevelTableValues host f2 fuel).result? = some cResult.Success ∧
      (ReadNested.ReadNestedTableValues host f3 fuel).result? = some cResult.Success) ∧
    ((LoadTableFromFile host f1).result? ≠ none ∧
      (LoadTableFromFile host f1).result? ≠ some cResult.Success →
      (Tables.main host f1 f2 f3 fuel).result? = some EXIT_FAILURE ∧
      (Tables.main host f1 f2 f3 fuel).calls = (LoadTableFromFile host f1).calls) ∧
    ((LoadTableFromFile host f1).result? = some cResult.Success ∧
      (ReadTopLevel.ReadTopLevelTableValues host f2 fuel).result? ≠ none ∧
      (ReadTopLevel.ReadTopLevelTableValues host f2 fuel).result? ≠ some cResult.Success →
      (Tables.main host f1 f2 f3 fuel).result? = some EXIT_FAILURE ∧
      (Tables.main host f1 f2 f3 fuel).calls =
        (ReadTopLevel.ReadTopLevelTableValues host f2 fuel).calls ++
          (LoadTableFromFile host f1).calls) ∧
    ((LoadTableFromFile host f1).result? = some cResult.Success ∧
      (ReadTopLevel.ReadTopLevelTableValues host f2 fuel).result? = some cResult.Success ∧
      (ReadNested.ReadNestedTableValues host f3 fuel).result? ≠ none →
      ((ReadNested.ReadNestedTableValues host f3 fuel).result? ≠ some cResult.Success →
        (Tables.main host f1 f2 f3 fuel).result? = some EXIT_FAILURE) ∧
      (Tables.main host f1 f2 f3 fuel).calls =
        (ReadNested.ReadNestedTableValues host f3 fuel).calls ++
          (ReadTopLevel.ReadTopLevelTableValues host f2 fuel).calls ++
          (LoadTableFromFile host f1).calls) := by
  rcases hA : LoadTableFromFile host f1 with ⟨a, ga, ca⟩ | ⟨fa, La⟩
  · rcases hB : ReadTopLevel.ReadTopLevelTableValues host f2 fuel with ⟨b, gb, cb⟩ | ⟨fb, Lb⟩
    · rcases hC : ReadNested.ReadNestedTableValues host f3 fuel with ⟨c, gc, cc⟩ | ⟨fc, Lc⟩
      · cases a <;> cases b <;> cases c <;>
          simp [Tables.main, hA, hB, hC, Run.andThen, Run.result?, Run.calls, cResult.toBool,
            EXIT_SUCCESS, EXIT_FAILURE]
      · cases a <;> cases b <;>
          simp [Tables.main, hA, hB, hC, Run.andThen, Run.result?, Run.calls, cResult.toBool,
            EXIT_SUCCESS, EXIT_FAILURE]
    · cases a <;>
        simp [Tables.main, hA, hB, Run.andThen, Run.result?, Run.calls, cResult.toBool,
          EXIT_SUCCESS, EXIT_FAILURE]
  · simp [Tables.main, hA, Run.andThen, Run.result?, Run.calls]

/-- Witness for C9: three well-formed asset files give `EXIT_SUCCESS`. -/
theorem C9_Tables_main_exit_code_witness :
    (Tables.main sampleHost emptyTableFile topLevelFile nestedFile 5).result?
      = some EXIT_SUCCESS :=
  (C9_Tables_main_exit_code sampleHost emptyTableFile topLevelFile nestedFile 5).1.mpr
    ⟨by decide!, by decide!, by decide!⟩

/-- Evaluates the code at the failing input of the claim C7: for a file that `luaL_loadfile`
cannot open, the `LoadAsset` of `ReadTopLevelTableValues.cpp` and the `LoadAsset` of
`ReadNestedTableValues.cpp` return `Failure`, but `LoadAsset_hybridMethod`, which they are
said to repeat exactly, returns `Success`; all three reach `OnExit` with an empty stack. -/
theorem C7_LoadAsset_differs_from_hybridMethod :
    (ReadTopLevel.LoadAsset sampleHost missingFile 0).result? = some cResult.Failure ∧
    (ReadNested.LoadAsset sampleHost missingFile 0).result? = some cResult.Failure ∧
    (LoadAsset_hybridMethod sampleHost missingFile).result? = some cResult.Success ∧
    (ReadTopLevel.LoadAsset sampleHost missingFile 0).gettop? = some 0 ∧
    (ReadNested.LoadAsset sampleHost missingFile 0).gettop? = some 0 ∧
    (LoadAsset_hybridMethod sampleHost missingFile).gettop? = some 0 := by
  decide!

/-! ## Reading the values of a table -/

namespace ReadTopLevel

/-- The reader `LoadTableValues_stringKeys` returns on every asset table and leaves the
stack as it found it. -/
theorem stringKeys_balanced (L : lua_State) (ref border : ℕ)
    (pairs : List (LuaValue × LuaValue)) (rest : List LuaValue)
    (h : L.stack = .table ref border pairs :: rest) :
    ∃ res L1, LoadTableValues_stringKeys L = .ok res L1 ∧ L1.stack = L.stack ∧
      (L.isOpen → L1.isOpen) := by
  obtain ⟨stack, calls, n2s, s2n⟩ := L
  simp only at h
  subst h
  simp [LoadTableValues_stringKeys, lua_pushstring, lua_gettable, lua_isnil, lua_type,
    luaL_typename, lua_typename, lua_tostring, lua_tolstring, lua_tonumber, lua_tonumberx,
    lua_pop, lua_settop, index2addr, record, push, lua_State.isOpen]
  split_ifs <;> exact ⟨_, _, rfl, rfl, by simp [lua_State.isOpen]⟩

/-- The loop of `LoadTableValues_integerKeys` from any counter. -/
theorem integerKeys_loop_balanced (n : ℕ) (i : ℤ) (L : lua_State) (ref border : ℕ)
    (pairs : List (LuaValue × LuaValue)) (rest : List LuaValue)
    (h : L.stack = .table ref border pairs :: rest) :
    ∃ res L1, LoadTableValues_integerKeys_loop n i L = .ok res L1 ∧ L1.stack = L.stack ∧
      (L.isOpen → L1.isOpen) := by
  induction n generalizing i L with
  | zero => exact ⟨_, _, rfl, rfl, id⟩
  | succ n ih =>
    obtain ⟨stack, calls, n2s, s2n⟩ := L
    simp only at h
    subst h
    simp only [LoadTableValues_integerKeys_loop, lua_pushinteger, lua_gettable, lua_tostring,
      lua_tolstring, lua_pop, lua_settop, index2addr, record, push, LuaM.bind_apply,
      LuaM.pure_apply, LuaM.ite_apply]
    simp
    split_ifs
    · obtain ⟨res, L1, e, hs, ho⟩ := ih (i + 1)
        ⟨.table ref border pairs :: rest,
          .lua_settop (-2) :: .lua_tolstring (-1) :: .lua_gettable (-2) :: .lua_pushinteger :: calls,
          n2s, s2n⟩ rfl
      refine ⟨res, L1, e, hs, fun hopen => ho ?_⟩
      simpa [lua_State.isOpen] using hopen
    · exact ⟨_, _, rfl, rfl, by simp [lua_State.isOpen]⟩

/-- The reader `LoadTableValues_integerKeys` returns on every asset table and leaves the
stack as it found it. -/
theorem integerKeys_balanced (L : lua_State) (ref border : ℕ)
    (pairs : List (LuaValue × LuaValue)) (rest : List LuaValue)
    (h : L.stack = .table ref border pairs :: rest) :
    ∃ res L1, LoadTableValues_integerKeys L = .ok res L1 ∧ L1.stack = L.stack ∧
      (L.isOpen → L1.isOpen) := by
  obtain ⟨stack, calls, n2s, s2n⟩ := L
  simp only at h
  subst h
  simp only [LoadTableValues_integerKeys, lua_pushinteger, lua_gettable, lua_tostring,
    lua_tolstring, lua_pop, lua_settop, luaL_len, index2addr, record, push, LuaM.bind_apply,
    LuaM.pure_apply, LuaM.ite_apply]
  simp
  split_ifs
  · obtain ⟨res, L1, e, hs, ho⟩ := integerKeys_loop_balanced (Int.toNat border) 1
      ⟨.table ref border pairs :: rest,
        .luaL_len (-1) :: .lua_settop (-2) :: .lua_tolstring (-1) :: .lua_gettable (-2) ::
          .lua_pushinteger :: calls, n2s, s2n⟩ ref border pairs rest rfl
    refine ⟨res, L1, ?_, hs, fun hopen => ho ?_⟩
    · simpa using e
    · simpa [lua_State.isOpen] using hopen
  · exact ⟨_, _, rfl, rfl, by simp [lua_State.isOpen]⟩
  · exact ⟨_, _, rfl, rfl, by simp [lua_State.isOpen]⟩

end ReadTopLevel

namespace ReadTopLevel

/-- The loop of `LoadTableValues_allKeys` on every table, started with a key above the
table: when it ends, the key is gone and the table is at the top again; it makes no call
with arguments the API does not accept. -/
theorem allKeys_loop_safe (fuel : ℕ) (ref border : ℕ) (pairs : List (LuaValue × LuaValue))
    (rest : List LuaValue) (k : LuaValue) (calls : List ApiCall) (n2s : ℚ → String)
    (s2n : String → Option ℚ) :
    ((LoadTableValues_allKeys_loop fuel
        ⟨k :: .table ref border pairs :: rest, calls, n2s, s2n⟩).fault? = none →
      (LoadTableValues_allKeys_loop fuel
        ⟨k :: .table ref border pairs :: rest, calls, n2s, s2n⟩).state.stack
        = .table ref border pairs :: rest) ∧
    (LoadTableValues_allKeys_loop fuel
        ⟨k :: .table ref border pairs :: rest, calls, n2s, s2n⟩).fault? ≠ some .apiCheck ∧
    (ApiCall.lua_close ∉ calls → (LoadTableValues_allKeys_loop fuel
        ⟨k :: .table ref border pairs :: rest, calls, n2s, s2n⟩).state.isOpen) := by
  induction fuel generalizing k calls with
  | zero => simp [LoadTableValues_allKeys_loop, Outcome.fault?, Outcome.state, lua_State.isOpen]
  | succ fuel ih =>
    simp only [LoadTableValues_allKeys_loop, lua_next, index2addr, record, LuaM.bind_apply,
      LuaM.pure_apply, LuaM.ite_apply]
    simp
    rcases traversalStart pairs k with _ | i
    · simp [Outcome.fault?, Outcome.state, lua_State.isOpen]
    · rcases hp : pairs[i]? with _ | ⟨k1, v1⟩
      · simp [hp, Outcome.fault?, Outcome.state, lua_State.isOpen]
      · by_cases hk1 : k1.type = LUA_TSTRING <;> by_cases hv1 : v1.type = LUA_TSTRING <;>
          simp [hp, hk1, hv1, lua_type, lua_tostring, lua_tolstring, lua_tonumber, lua_tonumberx,
            lua_pop, lua_settop, index2addr, record]
        all_goals
          refine ⟨(ih _ _).1, (ih _ _).2.1, fun ho => (ih _ _).2.2 ?_⟩
          simpa using ho

end ReadTopLevel

/-! ## Traversal of a well-formed table -/

theorem luaV_rawequalobj_self (k : LuaValue) : luaV_rawequalobj k k = true := by
  cases k <;> simp [luaV_rawequalobj]

/-- In a well-formed table each key is found at its own position. -/
theorem findindex_getElem (pairs : List (LuaValue × LuaValue)) (hw : wellFormedPairs pairs)
    (i : ℕ) (hi : i < pairs.length) : findindex pairs pairs[i].1 = some i := by
  have hidx : pairs.findIdx (fun p => luaV_rawequalobj p.1 pairs[i].1) = i := by
    refine (List.findIdx_eq hi).mpr ⟨luaV_rawequalobj_self _, fun j hj => ?_⟩
    exact (List.pairwise_iff_getElem.mp hw.2) j i (Nat.lt_trans hj hi) hi hj
  simp [findindex, hidx, hi]

/-- In a well-formed table the traversal continues after the pair of a key. -/
theorem traversalStart_getElem (pairs : List (LuaValue × LuaValue))
    (hw : wellFormedPairs pairs) (i : ℕ) (hi : i < pairs.length) :
    traversalStart pairs pairs[i].1 = some (i + 1) := by
  have hnil : pairs[i].1.type ≠ LUA_TNIL := hw.1 _ (List.getElem_mem hi)
  have hfind := findindex_getElem pairs hw i hi
  revert hnil hfind
  generalize pairs[i].1 = key
  intro hnil hfind
  cases key <;> simp_all [traversalStart, LuaValue.type]

/-- Values that are not numbers are not converted by `lua_tolstring`. -/
theorem luaO_tostring_of_not_number (n2s : ℚ → String) (v : LuaValue)
    (h : v.type ≠ LUA_TNUMBER) : luaO_tostring n2s v = v := by
  cases v <;> simp_all [luaO_tostring, LuaValue.type]

namespace ReadTopLevel

/-- The loop of `LoadTableValues_allKeys` on a well-formed table, started with the key
after which the pair at position `i` follows: with more fuel than there are pairs left it
ends, with `Success`. -/
theorem allKeys_loop_total (ref border : ℕ) (pairs : List (LuaValue × LuaValue))
    (hw : wellFormedPairs pairs) (rest : List LuaValue) (fuel i : ℕ)
    (hfuel : pairs.length - i < fuel) (k : LuaValue) (hk : traversalStart pairs k = some i)
    (calls : List ApiCall) (n2s : ℚ → String) (s2n : String → Option ℚ) :
    (LoadTableValues_allKeys_loop fuel
      ⟨k :: .table ref border pairs :: rest, calls, n2s, s2n⟩).value? = some .Success := by
  induction fuel generalizing i k calls with
  | zero => omega
  | succ fuel ih =>
    simp only [LoadTableValues_allKeys_loop, lua_next, index2addr, record, LuaM.bind_apply,
      LuaM.pure_apply, LuaM.ite_apply]
    simp [hk]
    rcases hp : pairs[i]? with _ | ⟨k1, v1⟩
    · simp [hp, Outcome.value?]
    · obtain ⟨hi, hpi⟩ := List.getElem?_eq_some.mp hp
      have hnext : traversalStart pairs k1 = some (i + 1) := by
        have := traversalStart_getElem pairs hw i hi
        rwa [hpi] at this
      by_cases hk1 : k1.type = LUA_TSTRING <;> by_cases hv1 : v1.type = LUA_TSTRING <;>
        simp [hp, hk1, hv1, lua_type, lua_tostring, lua_tolstring, lua_tonumber, lua_tonumberx,
          lua_pop, lua_settop, index2addr, record]
      · rw [luaO_tostring_of_not_number n2s k1 (by rw [hk1]; decide)]
        exact ih (i + 1) (by omega) k1 hnext _
      · rw [luaO_tostring_of_not_number n2s k1 (by rw [hk1]; decide)]
        exact ih (i + 1) (by omega) k1 hnext _
      · exact ih (i + 1) (by omega) k1 hnext _
      · exact ih (i + 1) (by omega) k1 hnext _

end ReadTopLevel

namespace ReadTopLevel

/-- The reader `LoadTableValues_allKeys` on every table at the top of the stack. -/
theorem allKeys_safe (fuel : ℕ) (ref border : ℕ) (pairs : List (LuaValue × LuaValue))
    (rest : List LuaValue) (calls : List ApiCall) (n2s : ℚ → String)
    (s2n : String → Option ℚ) :
    ((LoadTableValues_allKeys fuel
        ⟨.table ref border pairs :: rest, calls, n2s, s2n⟩).fault? = none →
      (LoadTableValues_allKeys fuel
        ⟨.table ref border pairs :: rest, calls, n2s, s2n⟩).state.stack
        = .table ref border pairs :: rest) ∧
    (LoadTableValues_allKeys fuel
        ⟨.table ref border pairs :: rest, calls, n2s, s2n⟩).fault? ≠ some .apiCheck ∧
    (ApiCall.lua_close ∉ calls → (LoadTableValues_allKeys fuel
        ⟨.table ref border pairs :: rest, calls, n2s, s2n⟩).state.isOpen) := by
  simp only [LoadTableValues_allKeys, lua_pushnil, push, record, LuaM.bind_apply]
  refine ⟨(allKeys_loop_safe _ _ _ _ _ _ _ _ _).1, (allKeys_loop_safe _ _ _ _ _ _ _ _ _).2.1,
    fun ho => (allKeys_loop_safe _ _ _ _ _ _ _ _ _).2.2 ?_⟩
  simpa using ho

/-- The reader `LoadTableValues_allKeys` on a well-formed table ends when it has more
fuel than the table has pairs. -/
theorem allKeys_total (fuel : ℕ) (ref border : ℕ) (pairs : List (LuaValue × LuaValue))
    (hw : wellFormedPairs pairs) (hfuel : pairs.length < fuel)
    (rest : List LuaValue) (calls : List ApiCall) (n2s : ℚ → String)
    (s2n : String → Option ℚ) :
    (LoadTableValues_allKeys fuel
        ⟨.table ref border pairs :: rest, calls, n2s, s2n⟩).value? = some .Success := by
  simp only [LoadTableValues_allKeys, lua_pushnil, push, record, LuaM.bind_apply]
  exact allKeys_loop_total ref border pairs hw rest fuel 0 (by omega) .nil rfl _ _ _

/-- The function `LoadTableValues` of `ReadTopLevelTableValues.cpp` on every asset table:
when it returns the stack is as it was on entry, and it makes no call the API does not
accept. -/
theorem topLevel_LoadTableValues_safe (fuel : ℕ) (ref border : ℕ)
    (pairs : List (LuaValue × LuaValue)) (rest : List LuaValue) (calls : List ApiCall)
    (n2s : ℚ → String) (s2n : String → Option ℚ) :
    ((LoadTableValues fuel ⟨.table ref border pairs :: rest, calls, n2s, s2n⟩).fault? = none →
      (LoadTableValues fuel ⟨.table ref border pairs :: rest, calls, n2s, s2n⟩).state.stack
        = .table ref border pairs :: rest) ∧
    (LoadTableValues fuel ⟨.table ref border pairs :: rest, calls, n2s, s2n⟩).fault?
      ≠ some .apiCheck ∧
    (ApiCall.lua_close ∉ calls →
      (LoadTableValues fuel ⟨.table ref border pairs :: rest, calls, n2s, s2n⟩).state.isOpen) := by
  obtain ⟨res1, L1, e1, hs1, ho1⟩ := stringKeys_balanced
    ⟨.table ref border pairs :: rest, calls, n2s, s2n⟩ ref border pairs rest rfl
  simp only [LoadTableValues, LuaM.bind_apply, LuaM.pure_apply, LuaM.ite_apply, e1]
  split_ifs
  · exact ⟨fun _ => hs1, by simp [Outcome.fault?], ho1⟩
  · obtain ⟨res2, L2, e2, hs2, ho2⟩ := integerKeys_balanced L1 ref border pairs rest hs1
    simp only [e2]
    split_ifs
    · exact ⟨fun _ => hs2.trans hs1, by simp [Outcome.fault?], fun h => ho2 (ho1 h)⟩
    · obtain ⟨stack2, calls2, n2s2, s2n2⟩ := L2
      simp only at hs2 hs1
      rw [hs1] at hs2
      subst hs2
      have hk := allKeys_safe fuel ref border pairs rest calls2 n2s2 s2n2
      rcases hl : LoadTableValues_allKeys fuel
          ⟨.table ref border pairs :: rest, calls2, n2s2, s2n2⟩ with ⟨res3, L3⟩ | ⟨f3, L3⟩
      · rw [hl] at hk
        exact ⟨fun _ => hk.1 rfl, by simp [Outcome.fault?], fun h => hk.2.2 (ho2 (ho1 h))⟩
      · rw [hl] at hk
        exact ⟨fun hh => by simp [Outcome.fault?] at hh, hk.2.1, fun h => hk.2.2 (ho2 (ho1 h))⟩

/-- The function `LoadTableValues` of `ReadTopLevelTableValues.cpp` returns on every
well-formed asset table when it has more fuel than the table has pairs. -/
theorem topLevel_LoadTableValues_total (fuel : ℕ) (ref border : ℕ)
    (pairs : List (LuaValue × LuaValue)) (hw : wellFormedPairs pairs)
    (hfuel : pairs.length < fuel) (rest : List LuaValue) (calls : List ApiCall)
    (n2s : ℚ → String) (s2n : String → Option ℚ) :
    (LoadTableValues fuel ⟨.table ref border pairs :: rest, calls, n2s, s2n⟩).fault? = none := by
  obtain ⟨res1, L1, e1, hs1, ho1⟩ := stringKeys_balanced
    ⟨.table ref border pairs :: rest, calls, n2s, s2n⟩ ref border pairs rest rfl
  simp only [LoadTableValues, LuaM.bind_apply, LuaM.pure_apply, LuaM.ite_apply, e1]
  split_ifs
  · rfl
  · obtain ⟨res2, L2, e2, hs2, ho2⟩ := integerKeys_balanced L1 ref border pairs rest hs1
    simp only [e2]
    split_ifs
    · rfl
    · obtain ⟨stack2, calls2, n2s2, s2n2⟩ := L2
      simp only at hs2 hs1
      rw [hs1] at hs2
      subst hs2
      have hk := allKeys_total fuel ref border pairs hw hfuel rest calls2 n2s2 s2n2
      rcases hl : LoadTableValues_allKeys fuel
          ⟨.table ref border pairs :: rest, calls2, n2s2, s2n2⟩ with ⟨res3, L3⟩ | ⟨f3, L3⟩
      · rfl
      · rw [hl] at hk
        simp [Outcome.value?] at hk

end ReadTopLevel

namespace ReadTopLevel

theorem topLevel_LoadAsset_outOfMemory (host : Host) (file : ScriptFile) (fuel : ℕ)
    (h : host.outOfMemory = true) :
    LoadAsset host file fuel = .returned ⟨.OutOfMemory, none, [.luaL_newstate]⟩ := by
  simp [LoadAsset, luaL_newstate, h, OnExit]

/-- The function `LoadAsset` of `ReadTopLevelTableValues.cpp` on every file and every asset
table: when it returns, the stack is empty at `OnExit` and `lua_close` is the last call
and is made once; when the program stops inside it, that is by a Lua error or by want
of fuel while the table is read, and `lua_close` has not been called. -/
theorem topLevel_LoadAsset_spec (host : Host) (file : ScriptFile) (fuel : ℕ)
    (h : host.outOfMemory = false) :
    ((LoadAsset host file fuel).fault? = none →
      (LoadAsset host file fuel).gettop? = some 0 ∧
      ∃ cs, (LoadAsset host file fuel).calls = .lua_close :: cs ∧ ApiCall.lua_close ∉ cs) ∧
    (LoadAsset host file fuel).fault? ≠ some .apiCheck ∧
    ((LoadAsset host file fuel).fault? ≠ none →
      ApiCall.lua_close ∉ (LoadAsset host file fuel).calls) ∧
    ((∀ ref border pairs, file.run = .returned [.table ref border pairs] →
        wellFormedPairs pairs ∧ pairs.length < fuel) →
      (LoadAsset host file fuel).fault? = none) := by
  obtain ⟨le, ch, run⟩ := file
  rcases le with _ | ⟨st, msg⟩
  · rcases run with vals | ⟨st, err⟩
    · by_cases hlen : vals.length = 1
      · obtain ⟨v, rfl⟩ := List.length_eq_one.mp hlen
        by_cases hv : v.type = LUA_TTABLE
        · obtain ⟨ref, border, pairs, rfl⟩ : ∃ ref border pairs, v = .table ref border pairs := by
            cases v <;> simp [LuaValue.type, LUA_TTABLE, LUA_TNIL, LUA_TBOOLEAN,
              LUA_TLIGHTUSERDATA, LUA_TNUMBER, LUA_TSTRING, LUA_TFUNCTION, LUA_TUSERDATA,
              LUA_TTHREAD] at hv ⊢
          have hsafe := topLevel_LoadTableValues_safe fuel ref border pairs []
            [.lua_type (-1), .lua_gettop, .lua_pcallk 0 (-1), .luaL_loadfilex, .lua_gettop,
              .luaL_newstate] host.number2str host.str2number
          have htotal := topLevel_LoadTableValues_total fuel ref border pairs
          rcases hl : LoadTableValues fuel ⟨[.table ref border pairs],
            [.lua_type (-1), .lua_gettop, .lua_pcallk 0 (-1), .luaL_loadfilex, .lua_gettop,
              .luaL_newstate], host.number2str, host.str2number⟩ with ⟨res, L1⟩ | ⟨f, L1⟩
          · rw [hl] at hsafe
            obtain ⟨stack1, calls1, n2s1, s2n1⟩ := L1
            have hst : stack1 = [.table ref border pairs] := hsafe.1 rfl
            have hop : ApiCall.lua_close ∉ calls1 := hsafe.2.2 (by simp)
            subst hst
            simp [LoadAsset, luaL_newstate, h, thenOnExit, OnExit, luaL_loadfile, luaL_loadfilex,
              lua_gettop, record, push, LUA_OK, index2addr, lua_pop, lua_settop, lua_close,
              lua_pcall, lua_pcallk, adjustResults, LUA_MULTRET, lua_istable, lua_type,
              LuaValue.type, hl, Run.fault?, Run.gettop?, Run.calls, hop]
          · rw [hl] at hsafe
            have hop : ApiCall.lua_close ∉ L1.calls := hsafe.2.2 (by simp)
            have hf : f ≠ .apiCheck := by simpa [Outcome.fault?] using hsafe.2.1
            simp [LoadAsset, luaL_newstate, h, thenOnExit, OnExit, luaL_loadfile, luaL_loadfilex,
              lua_gettop, record, push, LUA_OK, index2addr, lua_pop, lua_settop, lua_close,
              lua_pcall, lua_pcallk, adjustResults, LUA_MULTRET, lua_istable, lua_type,
              LuaValue.type, hl, Run.fault?, Run.gettop?, Run.calls, hop, hf]
            intro hwf
            by_contra hfuel
            have := htotal hwf (by omega) []
              [.lua_type (-1), .lua_gettop, .lua_pcallk 0 (-1), .luaL_loadfilex, .lua_gettop,
                .luaL_newstate] host.number2str host.str2number
            rw [hl] at this
            simp [Outcome.fault?] at this
        · simp [LoadAsset, luaL_newstate, h, thenOnExit, OnExit, luaL_loadfile, luaL_loadfilex,
            lua_gettop, record, push, LUA_OK, index2addr, lua_pop, lua_settop, lua_close,
            lua_pcall, lua_pcallk, adjustResults, LUA_MULTRET, lua_istable, lua_type,
            luaL_typename, lua_typename, hv, Run.fault?, Run.gettop?, Run.calls]
      · simp [LoadAsset, luaL_newstate, h, thenOnExit, OnExit, luaL_loadfile, luaL_loadfilex,
          lua_gettop, record, push, LUA_OK, lua_close, lua_pcall, lua_pcallk, adjustResults,
          LUA_MULTRET, hlen]
        rw [lua_pop_ok _ _ (by omega) (by simp)]
        simp [Run.fault?, Run.gettop?, Run.calls]
    · simp [LoadAsset, luaL_newstate, h, thenOnExit, OnExit, luaL_loadfile, luaL_loadfilex,
        lua_gettop, record, push, st.code_ne_zero, LUA_OK, lua_tostring, lua_tolstring,
        index2addr, lua_pop, lua_settop, lua_close, lua_pcall, lua_pcallk, Run.fault?,
        Run.gettop?, Run.calls]
  · simp [LoadAsset, luaL_newstate, h, thenOnExit, OnExit, luaL_loadfile, luaL_loadfilex,
      lua_gettop, record, push, st.code_ne_zero, LUA_OK, lua_tostring, lua_tolstring,
      index2addr, lua_pop, lua_settop, lua_close, Run.fault?, Run.gettop?, Run.calls]

end ReadTopLevel

/-- Only tables have the type tag `LUA_TTABLE`. -/
theorem LuaValue.eq_table_of_type (v : LuaValue) (hv : v.type = LUA_TTABLE) :
    ∃ ref border pairs, v = .table ref border pairs := by
  cases v <;> simp [LuaValue.type, LUA_TTABLE, LUA_TNIL, LUA_TBOOLEAN, LUA_TLIGHTUSERDATA,
    LUA_TNUMBER, LUA_TSTRING, LUA_TFUNCTION, LUA_TUSERDATA, LUA_TTHREAD] at hv ⊢

namespace ReadNested

/-- The loop of `LoadTableValues_textures_paths` returns from any counter and leaves the
stack as it found it. -/
theorem textures_paths_loop_balanced (n : ℕ) (i : ℤ) (ref border : ℕ)
    (pairs : List (LuaValue × LuaValue)) (rest : List LuaValue) (calls : List ApiCall)
    (n2s : ℚ → String) (s2n : String → Option ℚ) :
    ∃ calls1, LoadTableValues_textures_paths_loop n i
        ⟨.table ref border pairs :: rest, calls, n2s, s2n⟩
      = .ok () ⟨.table ref border pairs :: rest, calls1, n2s, s2n⟩ ∧
      (ApiCall.lua_close ∉ calls → ApiCall.lua_close ∉ calls1) := by
  induction n generalizing i calls with
  | zero => exact ⟨_, rfl, id⟩
  | succ n ih =>
    simp only [LoadTableValues_textures_paths_loop, lua_pushinteger, lua_gettable, lua_tostring,
      lua_tolstring, lua_pop, lua_settop, index2addr, record, push, LuaM.bind_apply,
      LuaM.pure_apply, LuaM.ite_apply]
    simp
    obtain ⟨calls1, e, ho⟩ := ih (i + 1)
      (.lua_settop (-2) :: .lua_tolstring (-1) :: .lua_gettable (-2) :: .lua_pushinteger :: calls)
    exact ⟨calls1, e, fun h => ho (by simpa using h)⟩

/-- The reader `LoadTableValues_textures` returns on every asset table and leaves the stack as
it found it. -/
theorem textures_balanced (ref border : ℕ) (pairs : List (LuaValue × LuaValue))
    (rest : List LuaValue) (calls : List ApiCall) (n2s : ℚ → String)
    (s2n : String → Option ℚ) :
    ∃ res calls1, LoadTableValues_textures ⟨.table ref border pairs :: rest, calls, n2s, s2n⟩
      = .ok res ⟨.table ref border pairs :: rest, calls1, n2s, s2n⟩ ∧
      (ApiCall.lua_close ∉ calls → ApiCall.lua_close ∉ calls1) := by
  by_cases hv : (luaH_get pairs (.string "textures")).type = LUA_TTABLE
  · obtain ⟨r2, b2, p2, hv2⟩ := LuaValue.eq_table_of_type _ hv
    obtain ⟨calls1, e, ho⟩ := textures_paths_loop_balanced b2 1 r2 b2 p2
      (.table ref border pairs :: rest)
      (.luaL_len (-1) :: .lua_type (-1) :: .lua_gettable (-2) :: .lua_pushstring :: calls) n2s s2n
    simp [LoadTableValues_textures, LoadTableValues_textures_paths, lua_pushstring, lua_gettable,
      lua_istable, lua_type, luaL_len, lua_pop, lua_settop, index2addr, record, push, hv2,
      LuaValue.type, e]
    exact ⟨_, _, ⟨rfl, rfl⟩, fun h => by simpa using ho (by simpa using h)⟩
  · simp [LoadTableValues_textures, lua_pushstring, lua_gettable, lua_istable, lua_type,
      luaL_typename, lua_typename, lua_pop, lua_settop, index2addr, record, push, hv]
    exact ⟨_, _, ⟨rfl, rfl⟩, by simp⟩

/-- The loop of `LoadTableValues_parameters_values` on every table, started with a key above
the table: when it ends, the key is gone and the table is at the top again; it makes no
call with arguments the API does not accept. -/
theorem parameters_values_loop_safe (fuel : ℕ) (ref border : ℕ)
    (pairs : List (LuaValue × LuaValue)) (rest : List LuaValue) (k : LuaValue)
    (calls : List ApiCall) (n2s : ℚ → String) (s2n : String → Option ℚ) :
    ((LoadTableValues_parameters_values_loop fuel
        ⟨k :: .table ref border pairs :: rest, calls, n2s, s2n⟩).fault? = none →
      ∃ calls1, (LoadTableValues_parameters_values_loop fuel
        ⟨k :: .table ref border pairs :: rest, calls, n2s, s2n⟩).state
        = ⟨.table ref border pairs :: rest, calls1, n2s, s2n⟩) ∧
    (LoadTableValues_parameters_values_loop fuel
        ⟨k :: .table ref border pairs :: rest, calls, n2s, s2n⟩).fault? ≠ some .apiCheck ∧
    (ApiCall.lua_close ∉ calls → (LoadTableValues_parameters_values_loop fuel
        ⟨k :: .table ref border pairs :: rest, calls, n2s, s2n⟩).state.isOpen) := by
  induction fuel generalizing k calls with
  | zero =>
    simp [LoadTableValues_parameters_values_loop, Outcome.fault?, Outcome.state,
      lua_State.isOpen]
  | succ fuel ih =>
    simp only [LoadTableValues_parameters_values_loop, lua_next, index2addr, record,
      LuaM.bind_apply, LuaM.pure_apply, LuaM.ite_apply]
    simp
    rcases traversalStart pairs k with _ | i
    · simp [Outcome.fault?, Outcome.state, lua_State.isOpen]
    · rcases hp : pairs[i]? with _ | ⟨k1, v1⟩
      · simp [hp, Outcome.fault?, Outcome.state, lua_State.isOpen]
      · simp [hp, lua_tostring, lua_tolstring, lua_tonumber, lua_tonumberx,
          lua_pop, lua_settop, index2addr, record]
        refine ⟨(ih _ _).1, (ih _ _).2.1, fun ho => (ih _ _).2.2 ?_⟩
        simpa using ho

/-- The loop of `LoadTableValues_parameters_values` on a well-formed table none of whose keys
is a number: with more fuel than there are pairs left it ends, with `Success`. -/
theorem parameters_values_loop_total (ref border : ℕ) (pairs : List (LuaValue × LuaValue))
    (hw : wellFormedPairs pairs) (hkeys : ∀ p ∈ pairs, p.1.type ≠ LUA_TNUMBER)
    (rest : List LuaValue) (fuel i : ℕ)
    (hfuel : pairs.length - i < fuel) (k : LuaValue) (hk : traversalStart pairs k = some i)
    (calls : List ApiCall) (n2s : ℚ → String) (s2n : String → Option ℚ) :
    (LoadTableValues_parameters_values_loop fuel
      ⟨k :: .table ref border pairs :: rest, calls, n2s, s2n⟩).value? = some .Success := by
  induction fuel generalizing i k calls with
  | zero => omega
  | succ fuel ih =>
    simp only [LoadTableValues_parameters_values_loop, lua_next, index2addr, record,
      LuaM.bind_apply, LuaM.pure_apply, LuaM.ite_apply]
    simp [hk]
    rcases hp : pairs[i]? with _ | ⟨k1, v1⟩
    · simp [hp, Outcome.value?]
    · obtain ⟨hi, hpi⟩ := List.getElem?_eq_some.mp hp
      have hnext : traversalStart pairs k1 = some (i + 1) := by
        have := traversalStart_getElem pairs hw i hi
        rwa [hpi] at this
      have hk1 : k1.type ≠ LUA_TNUMBER := by
        have := hkeys _ (List.getElem_mem hi)
        rwa [hpi] at this
      simp [hp, lua_tostring, lua_tolstring, lua_tonumber, lua_tonumberx,
        lua_pop, lua_settop, index2addr, record]
      rw [luaO_tostring_of_not_number n2s k1 hk1]
      exact ih (i + 1) (by omega) k1 hnext _

end ReadNested

namespace ReadNested

/-- The reader `LoadTableValues_parameters` on every asset table: when it returns the stack
is as it was on entry, and it makes no call the API does not accept. -/
theorem parameters_safe (fuel : ℕ) (ref border : ℕ) (pairs : List (LuaValue × LuaValue))
    (rest : List LuaValue) (calls : List ApiCall) (n2s : ℚ → String)
    (s2n : String → Option ℚ) :
    ((LoadTableValues_parameters fuel
        ⟨.table ref border pairs :: rest, calls, n2s, s2n⟩).fault? = none →
      (LoadTableValues_parameters fuel
        ⟨.table ref border pairs :: rest, calls, n2s, s2n⟩).state.stack
        = .table ref border pairs :: rest) ∧
    (LoadTableValues_parameters fuel
        ⟨.table ref border pairs :: rest, calls, n2s, s2n⟩).fault? ≠ some .apiCheck ∧
    (ApiCall.lua_close ∉ calls → (LoadTableValues_parameters fuel
        ⟨.table ref border pairs :: rest, calls, n2s, s2n⟩).state.isOpen) := by
  by_cases hv : (luaH_get pairs (.string "parameters")).type = LUA_TTABLE
  · obtain ⟨r2, b2, p2, hv2⟩ := LuaValue.eq_table_of_type _ hv
    have hloop := parameters_values_loop_safe fuel r2 b2 p2 (.table ref border pairs :: rest) .nil
      (.lua_pushnil :: .lua_type (-1) :: .lua_gettable (-2) :: .lua_pushstring :: calls) n2s s2n
    rcases hl : LoadTableValues_parameters_values_loop fuel
        ⟨.nil :: .table r2 b2 p2 :: .table ref border pairs :: rest,
          .lua_pushnil :: .lua_type (-1) :: .lua_gettable (-2) :: .lua_pushstring :: calls,
          n2s, s2n⟩ with ⟨res, L1⟩ | ⟨f, L1⟩
    · rw [hl] at hloop
      obtain ⟨calls1, hst⟩ := hloop.1 rfl
      simp only [Outcome.state] at hst
      subst hst
      have hop := hloop.2.2
      simp [lua_State.isOpen, Outcome.state] at hop
      simp [LoadTableValues_parameters, LoadTableValues_parameters_values, lua_pushstring,
        lua_pushnil, lua_gettable, lua_istable, lua_type, lua_pop, lua_settop, index2addr,
        record, push, hv2, LuaValue.type, hl, Outcome.fault?, Outcome.state, lua_State.isOpen]
      exact hop
    · rw [hl] at hloop
      have hop := hloop.2.2
      have hf := hloop.2.1
      simp [lua_State.isOpen, Outcome.state, Outcome.fault?] at hop hf
      simp [LoadTableValues_parameters, LoadTableValues_parameters_values, lua_pushstring,
        lua_pushnil, lua_gettable, lua_istable, lua_type, lua_pop, lua_settop, index2addr,
        record, push, hv2, LuaValue.type, hl, Outcome.fault?, Outcome.state, lua_State.isOpen]
      exact ⟨hf, hop⟩
  · simp [LoadTableValues_parameters, lua_pushstring, lua_gettable, lua_istable, lua_type,
      luaL_typename, lua_typename, lua_pop, lua_settop, index2addr, record, push, hv,
      Outcome.fault?, Outcome.state, lua_State.isOpen]

/-- The reader `LoadTableValues_parameters` returns when the value at `"parameters"` is not
a table, or is a well-formed table without number keys and with fewer pairs than there is
fuel. -/
theorem parameters_total (fuel : ℕ) (ref border : ℕ) (pairs : List (LuaValue × LuaValue))
    (hp : ∀ r2 b2 p2, luaH_get pairs (.string "parameters") = .table r2 b2 p2 →
      wellFormedPairs p2 ∧ (∀ q ∈ p2, q.1.type ≠ LUA_TNUMBER) ∧ p2.length < fuel)
    (rest : List LuaValue) (calls : List ApiCall) (n2s : ℚ → String)
    (s2n : String → Option ℚ) :
    (LoadTableValues_parameters fuel
        ⟨.table ref border pairs :: rest, calls, n2s, s2n⟩).fault? = none := by
  by_cases hv : (luaH_get pairs (.string "parameters")).type = LUA_TTABLE
  · obtain ⟨r2, b2, p2, hv2⟩ := LuaValue.eq_table_of_type _ hv
    obtain ⟨hw, hkeys, hfuel⟩ := hp r2 b2 p2 hv2
    have hloop := parameters_values_loop_total r2 b2 p2 hw hkeys
      (.table ref border pairs :: rest) fuel 0 (by omega) .nil rfl
      (.lua_pushnil :: .lua_type (-1) :: .lua_gettable (-2) :: .lua_pushstring :: calls) n2s s2n
    have hsafe := parameters_values_loop_safe fuel r2 b2 p2 (.table ref border pairs :: rest) .nil
      (.lua_pushnil :: .lua_type (-1) :: .lua_gettable (-2) :: .lua_pushstring :: calls) n2s s2n
    rcases hl : LoadTableValues_parameters_values_loop fuel
        ⟨.nil :: .table r2 b2 p2 :: .table ref border pairs :: rest,
          .lua_pushnil :: .lua_type (-1) :: .lua_gettable (-2) :: .lua_pushstring :: calls,
          n2s, s2n⟩ with ⟨res, L1⟩ | ⟨f, L1⟩
    · rw [hl] at hsafe
      obtain ⟨calls1, hst⟩ := hsafe.1 rfl
      simp only [Outcome.state] at hst
      subst hst
      simp [LoadTableValues_parameters, LoadTableValues_parameters_values, lua_pushstring,
        lua_pushnil, lua_gettable, lua_istable, lua_type, lua_pop, lua_settop, index2addr,
        record, push, hv2, LuaValue.type, hl, Outcome.fault?]
    · rw [hl] at hloop
      simp [Outcome.value?] at hloop
  · simp [LoadTableValues_parameters, lua_pushstring, lua_gettable, lua_istable, lua_type,
      luaL_typename, lua_typename, lua_pop, lua_settop, index2addr, record, push, hv,
      Outcome.fault?]

/-- The function `LoadTableValues` of `ReadNestedTableValues.cpp` on every asset table: when
it returns the stack is as it was on entry, and it makes no call the API does not
accept. -/
theorem nested_LoadTableValues_safe (fuel : ℕ) (ref border : ℕ)
    (pairs : List (LuaValue × LuaValue)) (rest : List LuaValue) (calls : List ApiCall)
    (n2s : ℚ → String) (s2n : String → Option ℚ) :
    ((LoadTableValues fuel ⟨.table ref border pairs :: rest, calls, n2s, s2n⟩).fault? = none →
      (LoadTableValues fuel ⟨.table ref border pairs :: rest, calls, n2s, s2n⟩).state.stack
        = .table ref border pairs :: rest) ∧
    (LoadTableValues fuel ⟨.table ref border pairs :: rest, calls, n2s, s2n⟩).fault?
      ≠ some .apiCheck ∧
    (ApiCall.lua_close ∉ calls →
      (LoadTableValues fuel ⟨.table ref border pairs :: rest, calls, n2s, s2n⟩).state.isOpen) := by
  obtain ⟨res1, calls1, e1, ho1⟩ := textures_balanced ref border pairs rest calls n2s s2n
  simp only [LoadTableValues, LuaM.bind_apply, LuaM.pure_apply, LuaM.ite_apply, e1]
  split_ifs
  · exact ⟨fun _ => rfl, by simp [Outcome.fault?], ho1⟩
  · have hk := parameters_safe fuel ref border pairs rest calls1 n2s s2n
    rcases hl : LoadTableValues_parameters fuel
        ⟨.table ref border pairs :: rest, calls1, n2s, s2n⟩ with ⟨res3, L3⟩ | ⟨f3, L3⟩
    · rw [hl] at hk
      exact ⟨fun _ => hk.1 rfl, by simp [Outcome.fault?], fun h => hk.2.2 (ho1 h)⟩
    · rw [hl] at hk
      exact ⟨fun hh => by simp [Outcome.fault?] at hh, hk.2.1, fun h => hk.2.2 (ho1 h)⟩

/-- The function `LoadTableValues` of `ReadNestedTableValues.cpp` returns under the
condition of `parameters_total`. -/
theorem nested_LoadTableValues_total (fuel : ℕ) (ref border : ℕ)
    (pairs : List (LuaValue × LuaValue))
    (hp : ∀ r2 b2 p2, luaH_get pairs (.string "parameters") = .table r2 b2 p2 →
      wellFormedPairs p2 ∧ (∀ q ∈ p2, q.1.type ≠ LUA_TNUMBER) ∧ p2.length < fuel)
    (rest : List LuaValue) (calls : List ApiCall)
    (n2s : ℚ → String) (s2n : String → Option ℚ) :
    (LoadTableValues fuel ⟨.table ref border pairs :: rest, calls, n2s, s2n⟩).fault? = none := by
  obtain ⟨res1, calls1, e1, ho1⟩ := textures_balanced ref border pairs rest calls n2s s2n
  simp only [LoadTableValues, LuaM.bind_apply, LuaM.pure_apply, LuaM.ite_apply, e1]
  split_ifs
  · rfl
  · have hk := parameters_total fuel ref border pairs hp rest calls1 n2s s2n
    rcases hl : LoadTableValues_parameters fuel
        ⟨.table ref border pairs :: rest, calls1, n2s, s2n⟩ with ⟨res3, L3⟩ | ⟨f3, L3⟩
    · rfl
    · rw [hl] at hk
      simp [Outcome.fault?] at hk

end ReadNested

namespace ReadNested

theorem nested_LoadAsset_outOfMemory (host : Host) (file : ScriptFile) (fuel : ℕ)
    (h : host.outOfMemory = true) :
    LoadAsset host file fuel = .returned ⟨.OutOfMemory, none, [.luaL_newstate]⟩ := by
  simp [LoadAsset, luaL_newstate, h, OnExit]

/-- The function `LoadAsset` of `ReadNestedTableValues.cpp` on every file and every asset
table: when it returns, the stack is empty at `OnExit` and `lua_close` is the last call
and is made once; when the program stops inside it, that is by a Lua error or by want
of fuel while the table is read, and `lua_close` has not been called. -/
theorem nested_LoadAsset_spec (host : Host) (file : ScriptFile) (fuel : ℕ)
    (h : host.outOfMemory = false) :
    ((LoadAsset host file fuel).fault? = none →
      (LoadAsset host file fuel).gettop? = some 0 ∧
      ∃ cs, (LoadAsset host file fuel).calls = .lua_close :: cs ∧ ApiCall.lua_close ∉ cs) ∧
    (LoadAsset host file fuel).fault? ≠ some .apiCheck ∧
    ((LoadAsset host file fuel).fault? ≠ none →
      ApiCall.lua_close ∉ (LoadAsset host file fuel).calls) ∧
    ((∀ ref border pairs, file.run = .returned [.table ref border pairs] →
        ∀ r2 b2 p2, luaH_get pairs (.string "parameters") = .table r2 b2 p2 →
          wellFormedPairs p2 ∧ (∀ q ∈ p2, q.1.type ≠ LUA_TNUMBER) ∧ p2.length < fuel) →
      (LoadAsset host file fuel).fault? = none) := by
  obtain ⟨le, ch, run⟩ := file
  rcases le with _ | ⟨st, msg⟩
  · rcases run with vals | ⟨st, err⟩
    · by_cases hlen : vals.length = 1
      · obtain ⟨v, rfl⟩ := List.length_eq_one.mp hlen
        by_cases hv : v.type = LUA_TTABLE
        · obtain ⟨ref, border, pairs, rfl⟩ : ∃ ref border pairs, v = .table ref border pairs := by
            cases v <;> simp [LuaValue.type, LUA_TTABLE, LUA_TNIL, LUA_TBOOLEAN,
              LUA_TLIGHTUSERDATA, LUA_TNUMBER, LUA_TSTRING, LUA_TFUNCTION, LUA_TUSERDATA,
              LUA_TTHREAD] at hv ⊢
          have hsafe := nested_LoadTableValues_safe fuel ref border pairs []
            [.lua_type (-1), .lua_gettop, .lua_pcallk 0 (-1), .luaL_loadfilex, .lua_gettop,
              .luaL_newstate] host.number2str host.str2number
          have htotal := nested_LoadTableValues_total fuel ref border pairs
          rcases hl : LoadTableValues fuel ⟨[.table ref border pairs],
            [.lua_type (-1), .lua_gettop, .lua_pcallk 0 (-1), .luaL_loadfilex, .lua_gettop,
              .luaL_newstate], host.number2str, host.str2number⟩ with ⟨res, L1⟩ | ⟨f, L1⟩
          · rw [hl] at hsafe
            obtain ⟨stack1, calls1, n2s1, s2n1⟩ := L1
            have hst : stack1 = [.table ref border pairs] := hsafe.1 rfl
            have hop : ApiCall.lua_close ∉ calls1 := hsafe.2.2 (by simp)
            subst hst
            simp [LoadAsset, luaL_newstate, h, thenOnExit, OnExit, luaL_loadfile, luaL_loadfilex,
              lua_gettop, record, push, LUA_OK, index2addr, lua_pop, lua_settop, lua_close,
              lua_pcall, lua_pcallk, adjustResults, LUA_MULTRET, lua_istable, lua_type,
              LuaValue.type, hl, Run.fault?, Run.gettop?, Run.calls, hop]
          · rw [hl] at hsafe
            have hop : ApiCall.lua_close ∉ L1.calls := hsafe.2.2 (by simp)
            have hf : f ≠ .apiCheck := by simpa [Outcome.fault?] using hsafe.2.1
            have hrun : LoadAsset host ⟨none, ch, .returned [.table ref border pairs]⟩ fuel
                = .stopped f L1 := by
              simp [LoadAsset, luaL_newstate, h, thenOnExit, luaL_loadfile, luaL_loadfilex,
                lua_gettop, record, push, LUA_OK, index2addr, lua_pcall, lua_pcallk,
                adjustResults, LUA_MULTRET, lua_istable, lua_type, LuaValue.type, hl]
            rw [hrun]
            refine ⟨by simp [Run.fault?], by simpa [Run.fault?] using hf,
              fun _ => by simpa [Run.calls] using hop, fun hwf => ?_⟩
            have := htotal (hwf ref border pairs rfl) []
              [.lua_type (-1), .lua_gettop, .lua_pcallk 0 (-1), .luaL_loadfilex, .lua_gettop,
                .luaL_newstate] host.number2str host.str2number
            rw [hl] at this
            simp [Outcome.fault?] at this
        · simp [LoadAsset, luaL_newstate, h, thenOnExit, OnExit, luaL_loadfile, luaL_loadfilex,
            lua_gettop, record, push, LUA_OK, index2addr, lua_pop, lua_settop, lua_close,
            lua_pcall, lua_pcallk, adjustResults, LUA_MULTRET, lua_istable, lua_type,
            luaL_typename, lua_typename, hv, Run.fault?, Run.gettop?, Run.calls]
      · simp [LoadAsset, luaL_newstate, h, thenOnExit, OnExit, luaL_loadfile, luaL_loadfilex,
          lua_gettop, record, push, LUA_OK, lua_close, lua_pcall, lua_pcallk, adjustResults,
          LUA_MULTRET, hlen]
        rw [lua_pop_ok _ _ (by omega) (by simp)]
        simp [Run.fault?, Run.gettop?, Run.calls]
    · simp [LoadAsset, luaL_newstate, h, thenOnExit, OnExit, luaL_loadfile, luaL_loadfilex,
        lua_gettop, record, push, st.code_ne_zero, LUA_OK, lua_tostring, lua_tolstring,
        index2addr, lua_pop, lua_settop, lua_close, lua_pcall, lua_pcallk, Run.fault?,
        Run.gettop?, Run.calls]
  · simp [LoadAsset, luaL_newstate, h, thenOnExit, OnExit, luaL_loadfile, luaL_loadfilex,
      lua_gettop, record, push, st.code_ne_zero, LUA_OK, lua_tostring, lua_tolstring,
      index2addr, lua_pop, lua_settop, lua_close, Run.fault?, Run.gettop?, Run.calls]

end ReadNested

/-! ## The stack at `OnExit` after a table was read -/

/-- Evaluates the code at the failing input of the claim C4: for the asset file
`return { textures = {}, parameters = { 10 } }` a state is created, the file loads and
runs, and the `LoadAsset` of `ReadNestedTableValues.cpp` stops with a Lua error raised
by `lua_next` inside `LoadTableValues_parameters_values`: the assertion at `OnExit` is
not evaluated, three values (the converted key, the parameters table and the asset
table) are on the stack and `lua_close` is not called.  With a string key in the
parameters (the sample file) the assertion is evaluated with `lua_gettop` equal to `0`,
and so it is in the `LoadAsset` of `ReadTopLevelTableValues.cpp`, whose loop checks the
type of the key, when its table has the number keys `1` and `2`. -/
theorem C4_LoadAsset_stops_before_OnExit_on_number_key :
    sampleHost.outOfMemory = false ∧
    (ReadNested.LoadAsset sampleHost numberKeyFile 5).fault? = some .raised ∧
    (ReadNested.LoadAsset sampleHost numberKeyFile 5).gettop? = none ∧
    (ReadNested.LoadAsset sampleHost numberKeyFile 5).result? = none ∧
    ((ReadNested.LoadAsset sampleHost numberKeyFile 5).stack?).map (List.map LuaValue.type)
      = some [LUA_TSTRING, LUA_TTABLE, LUA_TTABLE] ∧
    (ReadNested.LoadAsset sampleHost numberKeyFile 5).calls.count .lua_close = 0 ∧
    (ReadNested.LoadAsset sampleHost nestedFile 5).gettop? = some 0 ∧
    (ReadTopLevel.LoadAsset sampleHost topLevelFile 5).gettop? = some 0 := by
  decide!

/-! ## Creation and destruction of the interpreter -/

theorem closesOnce_of_returned {α : Type} (host : Host) (run : Run α) (res : α)
    (top : Option ℤ) (cs : List ApiCall) (h : host.outOfMemory = false)
    (hrun : run = .returned ⟨res, top, .lua_close :: cs⟩) (hcs : ApiCall.lua_close ∉ cs) :
    closesOnce (!host.outOfMemory) run ∧ run.fault? = none := by
  subst hrun
  simp [closesOnce, Run.fault?, Run.calls, h, hcs]

theorem closesOnce_of_outOfMemory {α : Type} (host : Host) (run : Run α) (res : α)
    (h : host.outOfMemory = true)
    (hrun : run = .returned ⟨res, none, [.luaL_newstate]⟩) :
    closesOnce (!host.outOfMemory) run ∧ run.fault? = none := by
  subst hrun
  simp [closesOnce, Run.fault?, Run.calls, h]

/-- Evaluates the code at the counterexample to the claim C10 as it is stated: when
`luaFunctionsFromC.lua` does not define `ExampleFunction`, the first `lua_call` of the
`main` of LuaFunctionsFromC raises an error outside a protected call; the program stops
there, with a state that was created and on which `lua_close` is never called. -/
theorem C10_no_lua_close_after_unprotected_error :
    sampleHost.outOfMemory = false ∧
    (LuaFunctionsFromC.main sampleHost undefinedFunctionScript).fault? = some .raised ∧
    (LuaFunctionsFromC.main sampleHost undefinedFunctionScript).calls.count .lua_close = 0 := by
  decide!

/-- States the claim C10 as amended: in the three `LoadAsset_*` functions of
`LoadTableFromFile.cpp`, the two `LoadAsset` functions and the three `main` functions
that create a state, on every path on which the function reaches its `OnExit` block
and returns, `lua_close` is called exactly once when `luaL_newstate` gave a state and is
never called when it gave none, and no API call follows `lua_close` (it is the most
recent call). -/
theorem C10_lua_close_once_on_return (host : Host) (file : ScriptFile)
    (script : LuaFunctionsFromC.Script) (fuel : ℕ) :
    closesOnce (!host.outOfMemory) (LoadAsset_method1 host file) ∧
    closesOnce (!host.outOfMemory) (LoadAsset_method2 host file) ∧
    closesOnce (!host.outOfMemory) (LoadAsset_hybridMethod host file) ∧
    closesOnce (!host.outOfMemory) (StandaloneLuaScript.main host file) ∧
    closesOnce (!host.outOfMemory) (CFunctionsFromLua.main host file) ∧
    closesOnce (!host.outOfMemory) (LuaFunctionsFromC.main host script) ∧
    closesOnce (!host.outOfMemory) (ReadTopLevel.LoadAsset host file fuel) ∧
    closesOnce (!host.outOfMemory) (ReadNested.LoadAsset host file fuel) := by
  cases h : host.outOfMemory
  · obtain ⟨c1, h1, n1⟩ := LoadAsset_method1_run host file h
    obtain ⟨c2, h2, n2⟩ := LoadAsset_method2_run host file h
    obtain ⟨c3, h3, n3⟩ := LoadAsset_hybridMethod_run host file h
    obtain ⟨c4, h4, n4, -, -⟩ := StandaloneLuaScript.standalone_main_run host file h
    obtain ⟨c5, h5, n5, -, -⟩ := CFunctionsFromLua.cfunctions_main_run host file h
    have h6 := LuaFunctionsFromC.callLua_main_spec host script h
    have h7 := ReadTopLevel.topLevel_LoadAsset_spec host file fuel h
    have h8 := ReadNested.nested_LoadAsset_spec host file fuel h
    refine ⟨?_, ?_, ?_, ?_, ?_, ?_, ?_, ?_⟩
    · simpa [h] using (closesOnce_of_returned host _ _ _ c1 h h1 n1).1
    · simpa [h] using (closesOnce_of_returned host _ _ _ c2 h h2 n2).1
    · simpa [h] using (closesOnce_of_returned host _ _ _ c3 h h3 n3).1
    · have hc : ApiCall.lua_close ∉
          (.lua_gettop :: ((if file.fails then [.lua_settop (-2), .lua_tolstring (-1)] else [])
            ++ c4) : List ApiCall) := by
        split_ifs <;> simp [n4]
      have := closesOnce_of_returned host (StandaloneLuaScript.main host file) _ _ _ h
        (by simpa using h4) hc
      simpa [h] using this.1
    · have hc : ApiCall.lua_close ∉
          (.lua_gettop :: ((if file.fails then [.lua_settop (-2), .lua_tolstring (-1)] else [])
            ++ c5) : List ApiCall) := by
        split_ifs <;> simp [n5]
      have := closesOnce_of_returned host (CFunctionsFromLua.main host file) _ _ _ h
        (by simpa using h5) hc
      simpa [h] using this.1
    · split at h6
      · rename_i r e
        obtain ⟨hret, -, -, cs, hcs, hn⟩ := h6
        rw [e]
        simp only [closesOnce, Run.fault?, Run.calls, hcs]
        simp [hn, hret]
      · rename_i f L e
        obtain ⟨-, hf, hc, ho⟩ := h6
        rw [e]
        simp only [closesOnce, Run.fault?, Run.calls]
        simp
        exact ho
    · exact ⟨fun hr _ => (h7.1 hr).2, fun _ hc => by simp at hc, h7.2.2.1⟩
    · exact ⟨fun hr _ => (h8.1 hr).2, fun _ hc => by simp at hc, h8.2.2.1⟩
  · refine ⟨?_, ?_, ?_, ?_, ?_, ?_, ?_, ?_⟩
    · simpa [h] using (closesOnce_of_outOfMemory host _ _ h
        (LoadAsset_method1_outOfMemory host file h)).1
    · simpa [h] using (closesOnce_of_outOfMemory host _ _ h
        (LoadAsset_method2_outOfMemory host file h)).1
    · simpa [h] using (closesOnce_of_outOfMemory host _ _ h
        (LoadAsset_hybridMethod_outOfMemory host file h)).1
    · simpa [h] using (closesOnce_of_outOfMemory host _ _ h
        (StandaloneLuaScript.standalone_main_outOfMemory host file h)).1
    · simpa [h] using (closesOnce_of_outOfMemory host _ _ h
        (CFunctionsFromLua.cfunctions_main_outOfMemory host file h)).1
    · have := closesOnce_of_outOfMemory host _ _ h
        (LuaFunctionsFromC.callLua_main_outOfMemory host script h)
      simpa [h] using this.1
    · simpa [h] using (closesOnce_of_outOfMemory host _ _ h
        (ReadTopLevel.topLevel_LoadAsset_outOfMemory host file fuel h)).1
    · simpa [h] using (closesOnce_of_outOfMemory host _ _ h
        (ReadNested.nested_LoadAsset_outOfMemory host file fuel h)).1

/-- Witness for C10: the loader of a well-behaved asset file and the `main` of
LuaFunctionsFromC with the sample script return, and `lua_close` is their last call
and their only call of it. -/
theorem C10_lua_close_once_on_return_witness :
    (∃ cs, (LoadAsset_method1 sampleHost emptyTableFile).calls = .lua_close :: cs ∧
      ApiCall.lua_close ∉ cs) ∧
    (∃ cs, (LuaFunctionsFromC.main sampleHost sampleScript).calls = .lua_close :: cs ∧
      ApiCall.lua_close ∉ cs) ∧
    (∃ cs, (ReadNested.LoadAsset sampleHost nestedFile 5).calls = .lua_close :: cs ∧
      ApiCall.lua_close ∉ cs) :=
  ⟨(C10_lua_close_once_on_return sampleHost emptyTableFile sampleScript 5).1.1
      (by decide!) (by decide),
   (C10_lua_close_once_on_return sampleHost emptyTableFile sampleScript 5).2.2.2.2.2.1.1
      (by decide!) (by decide),
   (C10_lua_close_once_on_return sampleHost nestedFile sampleScript 5).2.2.2.2.2.2.2.1
      (by decide!) (by decide)⟩

/-! ## The C functions called from Lua -/

namespace CFunctionsFromLua

/-- Reading a number at a positive index succeeds and changes nothing but the log. -/
theorem lua_tonumber_positive (idx : ℤ) (hidx : 0 < idx) (L : lua_State) :
    ∃ x, lua_tonumber idx L = .ok x (record (.lua_tonumberx idx) L) := by
  simp only [lua_tonumber, lua_tonumberx, index2addr, record, if_pos hidx]
  split_ifs
  · rcases hv : L.stack[L.stack.length - idx.toNat]? with _ | v <;> simp [hv]
  · simp

/-- On a stack with a first argument `ExamplePrint` returns `0` and leaves the stack as it
was, but for the first argument, which `lua_tostring` has converted. -/
theorem ExamplePrint_eval (more : List LuaValue) (v1 : LuaValue) (calls : List ApiCall)
    (n2s : ℚ → String) (s2n : String → Option ℚ) :
    ExamplePrint ⟨more ++ [v1], calls, n2s, s2n⟩
      = .ok 0 ⟨more ++ [luaO_tostring n2s v1], .lua_tolstring 1 :: calls, n2s, s2n⟩ := by
  simp [ExamplePrint, lua_tostring, lua_tolstring, index2addr, record]

/-- The function `ExampleDouble` pushes one number on every stack. -/
theorem ExampleDouble_eval (arith : NumberArithmetic) (L : lua_State) :
    ∃ x L1, ExampleDouble arith L = .ok 1 L1 ∧ L1.stack = .number x :: L.stack := by
  obtain ⟨x1, h1⟩ := lua_tonumber_positive 1 (by decide) L
  simp only [ExampleDouble, LuaM.bind_apply, LuaM.pure_apply, h1]
  simp [lua_pushnumber, push, record]

/-- The function `ExampleAdd` pushes one number on every stack. -/
theorem ExampleAdd_eval (arith : NumberArithmetic) (L : lua_State) :
    ∃ x L1, ExampleAdd arith L = .ok 1 L1 ∧ L1.stack = .number x :: L.stack := by
  obtain ⟨x1, h1⟩ := lua_tonumber_positive 1 (by decide) L
  obtain ⟨x2, h2⟩ := lua_tonumber_positive 2 (by decide) (record (.lua_tonumberx 1) L)
  simp only [ExampleAdd, LuaM.bind_apply, LuaM.pure_apply, h1, h2]
  simp [lua_pushnumber, push, record]

/-- The function `ExampleStats` pushes three numbers on every stack. -/
theorem ExampleStats_eval (arith : NumberArithmetic) (L : lua_State) :
    ∃ x y z L1, ExampleStats arith L = .ok 3 L1 ∧
      L1.stack = .number z :: .number y :: .number x :: L.stack := by
  obtain ⟨x1, h1⟩ := lua_tonumber_positive 1 (by decide) L
  obtain ⟨x2, h2⟩ := lua_tonumber_positive 2 (by decide) (record (.lua_tonumberx 1) L)
  obtain ⟨x3, h3⟩ := lua_tonumber_positive 3 (by decide)
    (record (.lua_tonumberx 2) (record (.lua_tonumberx 1) L))
  obtain ⟨x4, h4⟩ := lua_tonumber_positive 4 (by decide)
    (record (.lua_tonumberx 3) (record (.lua_tonumberx 2) (record (.lua_tonumberx 1) L)))
  simp only [ExampleStats, LuaM.bind_apply, LuaM.pure_apply, h1, h2, h3, h4]
  simp [lua_pushnumber, push, record]

end CFunctionsFromLua

/-- Evaluates the code at the counterexample to the claim C11 as it is stated: called with
the number `5`, `ExamplePrint` returns `0` and pushes nothing, but its `lua_tostring`
has replaced the argument at index `1` by the string `"5"`: the arguments are not left
unchanged. -/
theorem C11_ExamplePrint_converts_a_number_argument :
    (CFunctionsFromLua.ExamplePrint numberArgument).value? = some 0 ∧
    (CFunctionsFromLua.ExamplePrint numberArgument).state.stack = [.string "5"] ∧
    (CFunctionsFromLua.ExamplePrint numberArgument).state.stack ≠ numberArgument.stack := by
  refine ⟨rfl, rfl, ?_⟩
  intro h
  have h2 : (CFunctionsFromLua.ExamplePrint numberArgument).state.stack = [.string "5"] := rfl
  rw [h2] at h
  simp [numberArgument] at h

/-- States the claim C11 as amended: each of `ExampleFunction`, `ExamplePrint`,
`ExampleDouble`, `ExampleAdd` and `ExampleStats` returns normally on every argument
stack, and the integer it returns is the number of values it pushed (`0`, `0`, `1`, `1`
and `3`); the arguments below the pushed values are left as they were, except that
`ExamplePrint` leaves the first argument converted by `lua_tostring`, which changes it
exactly when it is a number. -/
theorem C11_returned_count_is_pushed_count (arith : NumberArithmetic) (L : lua_State)
    (more : List LuaValue) (v1 : LuaValue) (calls : List ApiCall) (n2s : ℚ → String)
    (s2n : String → Option ℚ) :
    CFunctionsFromLua.ExampleFunction L = .ok 0 L ∧
    CFunctionsFromLua.ExamplePrint ⟨[], calls, n2s, s2n⟩
      = .ok 0 ⟨[], .lua_tolstring 1 :: calls, n2s, s2n⟩ ∧
    CFunctionsFromLua.ExamplePrint ⟨more ++ [v1], calls, n2s, s2n⟩
      = .ok 0 ⟨more ++ [luaO_tostring n2s v1], .lua_tolstring 1 :: calls, n2s, s2n⟩ ∧
    (v1.type ≠ LUA_TNUMBER → luaO_tostring n2s v1 = v1) ∧
    (v1.type = LUA_TNUMBER → (luaO_tostring n2s v1).type = LUA_TSTRING) ∧
    (∃ x L1, CFunctionsFromLua.ExampleDouble arith L = .ok 1 L1 ∧
      L1.stack = .number x :: L.stack) ∧
    (∃ x L1, CFunctionsFromLua.ExampleAdd arith L = .ok 1 L1 ∧
      L1.stack = .number x :: L.stack) ∧
    (∃ x y z L1, CFunctionsFromLua.ExampleStats arith L = .ok 3 L1 ∧
      L1.stack = .number z :: .number y :: .number x :: L.stack) := by
  refine ⟨rfl, ?_, CFunctionsFromLua.ExamplePrint_eval more v1 calls n2s s2n,
    luaO_tostring_of_not_number n2s v1, ?_, CFunctionsFromLua.ExampleDouble_eval arith L,
    CFunctionsFromLua.ExampleAdd_eval arith L, CFunctionsFromLua.ExampleStats_eval arith L⟩
  · simp [CFunctionsFromLua.ExamplePrint, lua_tostring, lua_tolstring, index2addr, record]
  · intro hv
    cases v1 <;> simp_all [luaO_tostring, LuaValue.type, LUA_TNUMBER, LUA_TSTRING, LUA_TNIL,
      LUA_TBOOLEAN, LUA_TLIGHTUSERDATA, LUA_TTABLE, LUA_TFUNCTION, LUA_TUSERDATA, LUA_TTHREAD]

/-- Witness for C11: a string argument is left as it is by `ExamplePrint`, a number
argument becomes a string. -/
theorem C11_returned_count_is_pushed_count_witness :
    luaO_tostring sampleHost.number2str (.string "text") = .string "text" ∧
    (luaO_tostring sampleHost.number2str (.integer 5)).type = LUA_TSTRING :=
  ⟨(C11_returned_count_is_pushed_count exactArithmetic sampleState [] (.string "text") []
      sampleHost.number2str sampleHost.str2number).2.2.2.1 (by decide),
   (C11_returned_count_is_pushed_count exactArithmetic sampleState [] (.integer 5) []
      sampleHost.number2str sampleHost.str2number).2.2.2.2.1 (by decide)⟩

/-- States the claim C13: `ExampleErrorChecking` raises a Lua error through `luaL_error`, and
does not return, exactly when the type of the value at index `1` is not `LUA_TSTRING`;
this is so for a number, a boolean, `nil` and a missing argument.  With a string at
index `1` it returns `0` and leaves the stack as it was. -/
theorem C13_ExampleErrorChecking_validates (more : List LuaValue) (v1 : LuaValue)
    (calls : List ApiCall) (n2s : ℚ → String) (s2n : String → Option ℚ) :
    lua_type 1 ⟨more ++ [v1], calls, n2s, s2n⟩
      = .ok v1.type ⟨more ++ [v1], .lua_type 1 :: calls, n2s, s2n⟩ ∧
    lua_type 1 ⟨[], calls, n2s, s2n⟩ = .ok LUA_TNONE ⟨[], .lua_type 1 :: calls, n2s, s2n⟩ ∧
    ((CFunctionsFromLua.ExampleErrorChecking ⟨more ++ [v1], calls, n2s, s2n⟩).fault?
        = some .raised ↔ v1.type ≠ LUA_TSTRING) ∧
    ((CFunctionsFromLua.ExampleErrorChecking ⟨more ++ [v1], calls, n2s, s2n⟩).fault?
        = none ↔ v1.type = LUA_TSTRING) ∧
    (v1.type = LUA_TSTRING →
      CFunctionsFromLua.ExampleErrorChecking ⟨more ++ [v1], calls, n2s, s2n⟩
        = .ok 0 ⟨more ++ [v1], .lua_type 1 :: calls, n2s, s2n⟩) ∧
    (v1.type ≠ LUA_TSTRING →
      (CFunctionsFromLua.ExampleErrorChecking ⟨more ++ [v1], calls, n2s, s2n⟩).state.calls
        = .luaL_error :: .lua_typename :: .lua_type 1 :: calls) ∧
    (CFunctionsFromLua.ExampleErrorChecking ⟨[], calls, n2s, s2n⟩).fault? = some .raised ∧
    (∀ i, (LuaValue.integer i).type ≠ LUA_TSTRING) ∧
    (∀ x, (LuaValue.number x).type ≠ LUA_TSTRING) ∧
    (∀ b, (LuaValue.boolean b).type ≠ LUA_TSTRING) ∧
    LuaValue.nil.type ≠ LUA_TSTRING := by
  refine ⟨?_, ?_, ?_, ?_, ?_, ?_, ?_, ?_, ?_, ?_, ?_⟩
  · simp [lua_type, index2addr, record]
  · simp [lua_type, index2addr, record]
  · by_cases hv : v1.type = LUA_TSTRING <;>
      simp [CFunctionsFromLua.ExampleErrorChecking, lua_type, lua_typename, luaL_error,
        index2addr, record, push, Outcome.fault?, hv]
  · by_cases hv : v1.type = LUA_TSTRING <;>
      simp [CFunctionsFromLua.ExampleErrorChecking, lua_type, lua_typename, luaL_error,
        index2addr, record, push, Outcome.fault?, hv]
  · intro hv
    simp [CFunctionsFromLua.ExampleErrorChecking, lua_type, index2addr, record, hv]
  · intro hv
    simp [CFunctionsFromLua.ExampleErrorChecking, lua_type, lua_typename, luaL_error,
      index2addr, record, push, Outcome.state, hv]
  · simp [CFunctionsFromLua.ExampleErrorChecking, lua_type, lua_typename, luaL_error,
      index2addr, record, push, Outcome.fault?, LUA_TNONE, LUA_TSTRING]
  · intro i; simp [LuaValue.type, LUA_TNUMBER, LUA_TSTRING]
  · intro x; simp [LuaValue.type, LUA_TNUMBER, LUA_TSTRING]
  · intro b; simp [LuaValue.type, LUA_TBOOLEAN, LUA_TSTRING]
  · decide

/-- Witness for C13: a string argument is accepted, the boolean `false` is rejected. -/
theorem C13_ExampleErrorChecking_validates_witness :
    CFunctionsFromLua.ExampleErrorChecking
        ⟨[] ++ [.string "This is the correct type"], [], sampleHost.number2str,
          sampleHost.str2number⟩
      = .ok 0 ⟨[] ++ [.string "This is the correct type"], [.lua_type 1],
          sampleHost.number2str, sampleHost.str2number⟩ ∧
    (CFunctionsFromLua.ExampleErrorChecking
        ⟨[] ++ [.boolean false], [], sampleHost.number2str, sampleHost.str2number⟩).state.calls
      = [.luaL_error, .lua_typename, .lua_type 1] :=
  ⟨(C13_ExampleErrorChecking_validates [] (.string "This is the correct type") []
      sampleHost.number2str sampleHost.str2number).2.2.2.2.1 (by decide),
   (C13_ExampleErrorChecking_validates [] (.boolean false) []
      sampleHost.number2str sampleHost.str2number).2.2.2.2.2.1 (by decide)⟩

/-- Evaluates the code at the failing input of the claim C14: called with a table as its
only argument, `ExampleError` raises no error: `lua_gettable( io_luaState, 1 )` reads in
that table the key at the top of the stack (the table itself), replaces it by `nil`, and
the function goes on to return `0`. -/
theorem C14_ExampleError_returns_for_a_table :
    (CFunctionsFromLua.ExampleError tableArgument).fault? = none ∧
    (CFunctionsFromLua.ExampleError tableArgument).value? = some 0 ∧
    (CFunctionsFromLua.ExampleError tableArgument).state.stack.map LuaValue.type = [LUA_TNIL] ∧
    (CFunctionsFromLua.ExampleError sampleState).fault? = some .raised := by
  decide

/-! ## The readers of table values -/

/-- States the claim C15: on an asset table `LoadTableValues_stringKeys` returns, and its
result is `InvalidFile` exactly when the value the table holds for `"name"` has a type
other than `LUA_TSTRING`, which includes `nil` (no value) and a number; otherwise the
result is `Success`.  The result depends on nothing else in the table, so not on the
value for `"age"`. -/
theorem C15_stringKeys_result (ref border : ℕ) (pairs : List (LuaValue × LuaValue))
    (rest : List LuaValue) (calls : List ApiCall) (n2s : ℚ → String)
    (s2n : String → Option ℚ) :
    ∃ res L1, ReadTopLevel.LoadTableValues_stringKeys
        ⟨.table ref border pairs :: rest, calls, n2s, s2n⟩ = .ok res L1 ∧
      (res = cResult.InvalidFile ↔ (luaH_get pairs (.string "name")).type ≠ LUA_TSTRING) ∧
      (res = cResult.Success ↔ (luaH_get pairs (.string "name")).type = LUA_TSTRING) ∧
      ((luaH_get pairs (.string "name")).type = LUA_TNIL → res = cResult.InvalidFile) ∧
      ((luaH_get pairs (.string "name")).type = LUA_TNUMBER → res = cResult.InvalidFile) := by
  have e1 : LUA_TSTRING ≠ LUA_TNIL := by decide
  have e2 : LUA_TSTRING ≠ LUA_TNUMBER := by decide
  by_cases hs : (luaH_get pairs (.string "name")).type = LUA_TSTRING
  · have hn : (luaH_get pairs (.string "name")).type ≠ LUA_TNIL := by rw [hs]; decide
    simp [ReadTopLevel.LoadTableValues_stringKeys, lua_pushstring, lua_gettable, lua_isnil,
      lua_type, lua_tostring, lua_tolstring, lua_tonumber, lua_tonumberx, lua_pop, lua_settop,
      index2addr, record, push, hs, e1, e2]
  · by_cases hn : (luaH_get pairs (.string "name")).type = LUA_TNIL
    · simp [ReadTopLevel.LoadTableValues_stringKeys, lua_pushstring, lua_gettable, lua_isnil,
        lua_type, lua_pop, lua_settop, index2addr, record, push, hn, e1.symm]
    · simp [ReadTopLevel.LoadTableValues_stringKeys, lua_pushstring, lua_gettable, lua_isnil,
        lua_type, luaL_typename, lua_typename, lua_pop, lua_settop, index2addr, record, push,
        hs, hn]

/-- Witness for C15: the sample asset table has a string at `"name"`. -/
theorem C15_stringKeys_result_witness :
    (ReadTopLevel.LoadTableValues_stringKeys
      ⟨.table 1 2 [(.integer 1, .string "first"), (.integer 2, .string "second"),
        (.string "name", .string "Lua"), (.string "age", .integer 25)] :: [], [],
        sampleHost.number2str, sampleHost.str2number⟩).value? = some cResult.Success := by
  obtain ⟨res, L1, e, -, hs, -, -⟩ := C15_stringKeys_result 1 2
    [(.integer 1, .string "first"), (.integer 2, .string "second"),
      (.string "name", .string "Lua"), (.string "age", .integer 25)] [] []
    sampleHost.number2str sampleHost.str2number
  rw [e, hs.mpr (by decide)]
  rfl

/-- States the claim C16: with the asset table at index `-1`, `LoadTableValues_stringKeys` and
`LoadTableValues_integerKeys` return on every table, and `LoadTableValues_allKeys`
returns on every well-formed table when it has more fuel than the table has pairs; on
every return, with a success or with `InvalidFile`, the stack is the stack of the
entry, with the asset table at index `-1`. -/
theorem C16_readers_restore_the_stack (fuel : ℕ) (ref border : ℕ)
    (pairs : List (LuaValue × LuaValue)) (rest : List LuaValue) (calls : List ApiCall)
    (n2s : ℚ → String) (s2n : String → Option ℚ) :
    (∃ res L1, ReadTopLevel.LoadTableValues_stringKeys
        ⟨.table ref border pairs :: rest, calls, n2s, s2n⟩ = .ok res L1 ∧
      L1.stack = .table ref border pairs :: rest) ∧
    (∃ res L1, ReadTopLevel.LoadTableValues_integerKeys
        ⟨.table ref border pairs :: rest, calls, n2s, s2n⟩ = .ok res L1 ∧
      L1.stack = .table ref border pairs :: rest) ∧
    (∀ res L1, ReadTopLevel.LoadTableValues_allKeys fuel
        ⟨.table ref border pairs :: rest, calls, n2s, s2n⟩ = .ok res L1 →
      L1.stack = .table ref border pairs :: rest) ∧
    (wellFormedPairs pairs → pairs.length < fuel →
      ∃ L1, ReadTopLevel.LoadTableValues_allKeys fuel
          ⟨.table ref border pairs :: rest, calls, n2s, s2n⟩ = .ok cResult.Success L1 ∧
        L1.stack = .table ref border pairs :: rest) := by
  have hsafe := ReadTopLevel.allKeys_safe fuel ref border pairs rest calls n2s s2n
  refine ⟨?_, ?_, ?_, ?_⟩
  · obtain ⟨res, L1, e, hs, -⟩ := ReadTopLevel.stringKeys_balanced
      ⟨.table ref border pairs :: rest, calls, n2s, s2n⟩ ref border pairs rest rfl
    exact ⟨res, L1, e, hs⟩
  · obtain ⟨res, L1, e, hs, -⟩ := ReadTopLevel.integerKeys_balanced
      ⟨.table ref border pairs :: rest, calls, n2s, s2n⟩ ref border pairs rest rfl
    exact ⟨res, L1, e, hs⟩
  · intro res L1 e
    rw [e] at hsafe
    exact hsafe.1 rfl
  · intro hw hfuel
    have htotal := ReadTopLevel.allKeys_total fuel ref border pairs hw hfuel rest calls n2s s2n
    rcases e : ReadTopLevel.LoadTableValues_allKeys fuel
        ⟨.table ref border pairs :: rest, calls, n2s, s2n⟩ with ⟨res, L1⟩ | ⟨f, L1⟩
    · rw [e] at hsafe htotal
      simp only [Outcome.value?, Option.some.injEq] at htotal
      subst htotal
      exact ⟨L1, rfl, hsafe.1 rfl⟩
    · rw [e] at htotal
      simp [Outcome.value?] at htotal

/-- Witness for C16: the sample asset table is well formed and is traversed with five units
of fuel. -/
theorem C16_readers_restore_the_stack_witness :
    ∃ L1, ReadTopLevel.LoadTableValues_allKeys 5
        ⟨.table 1 2 [(.integer 1, .string "first"), (.integer 2, .string "second"),
          (.string "name", .string "Lua"), (.string "age", .integer 25)] :: [], [],
          sampleHost.number2str, sampleHost.str2number⟩ = .ok cResult.Success L1 ∧
      L1.stack = [.table 1 2 [(.integer 1, .string "first"), (.integer 2, .string "second"),
          (.string "name", .string "Lua"), (.string "age", .integer 25)]] :=
  (C16_readers_restore_the_stack 5 1 2
    [(.integer 1, .string "first"), (.integer 2, .string "second"),
      (.string "name", .string "Lua"), (.string "age", .integer 25)] [] []
    sampleHost.number2str sampleHost.str2number).2.2.2 (by decide!) (by decide)

namespace ReadNested

/-- The reader `LoadTableValues_textures` ends with the `lua_pop( &io_luaState, 1 )` of
`OnExit` on every path, and with the stack of the entry. -/
theorem textures_pops_one (ref border : ℕ) (pairs : List (LuaValue × LuaValue))
    (rest : List LuaValue) (calls : List ApiCall) (n2s : ℚ → String)
    (s2n : String → Option ℚ) :
    ∃ res calls1, LoadTableValues_textures ⟨.table ref border pairs :: rest, calls, n2s, s2n⟩
      = .ok res ⟨.table ref border pairs :: rest, .lua_settop (-2) :: calls1, n2s, s2n⟩ := by
  by_cases hv : (luaH_get pairs (.string "textures")).type = LUA_TTABLE
  · obtain ⟨r2, b2, p2, hv2⟩ := LuaValue.eq_table_of_type _ hv
    obtain ⟨calls1, e, -⟩ := textures_paths_loop_balanced b2 1 r2 b2 p2
      (.table ref border pairs :: rest)
      (.luaL_len (-1) :: .lua_type (-1) :: .lua_gettable (-2) :: .lua_pushstring :: calls) n2s s2n
    simp [LoadTableValues_textures, LoadTableValues_textures_paths, lua_pushstring, lua_gettable,
      lua_istable, lua_type, luaL_len, lua_pop, lua_settop, index2addr, record, push, hv2,
      LuaValue.type, e]
  · simp [LoadTableValues_textures, lua_pushstring, lua_gettable, lua_istable, lua_type,
      luaL_typename, lua_typename, lua_pop, lua_settop, index2addr, record, push, hv]

/-- When the reader `LoadTableValues_parameters` returns, it has ended with the
`lua_pop( &io_luaState, 1 )` of `OnExit`, and with the stack of the entry. -/
theorem parameters_pops_one (fuel : ℕ) (ref border : ℕ) (pairs : List (LuaValue × LuaValue))
    (rest : List LuaValue) (calls : List ApiCall) (n2s : ℚ → String)
    (s2n : String → Option ℚ) (res : cResult) (L1 : lua_State)
    (hret : LoadTableValues_parameters fuel ⟨.table ref border pairs :: rest, calls, n2s, s2n⟩
      = .ok res L1) :
    ∃ calls1, L1 = ⟨.table ref border pairs :: rest, .lua_settop (-2) :: calls1, n2s, s2n⟩ := by
  by_cases hv : (luaH_get pairs (.string "parameters")).type = LUA_TTABLE
  · obtain ⟨r2, b2, p2, hv2⟩ := LuaValue.eq_table_of_type _ hv
    have hloop := parameters_values_loop_safe fuel r2 b2 p2 (.table ref border pairs :: rest) .nil
      (.lua_pushnil :: .lua_type (-1) :: .lua_gettable (-2) :: .lua_pushstring :: calls) n2s s2n
    rcases hl : LoadTableValues_parameters_values_loop fuel
        ⟨.nil :: .table r2 b2 p2 :: .table ref border pairs :: rest,
          .lua_pushnil :: .lua_type (-1) :: .lua_gettable (-2) :: .lua_pushstring :: calls,
          n2s, s2n⟩ with ⟨res2, L2⟩ | ⟨f, L2⟩
    · rw [hl] at hloop
      obtain ⟨calls1, hst⟩ := hloop.1 rfl
      simp only [Outcome.state] at hst
      subst hst
      simp [LoadTableValues_parameters, LoadTableValues_parameters_values, lua_pushstring,
        lua_pushnil, lua_gettable, lua_istable, lua_type, lua_pop, lua_settop, index2addr,
        record, push, hv2, LuaValue.type, hl] at hret
      exact ⟨calls1, hret.2.symm⟩
    · simp [LoadTableValues_parameters, LoadTableValues_parameters_values, lua_pushstring,
        lua_pushnil, lua_gettable, lua_istable, lua_type, lua_pop, lua_settop, index2addr,
        record, push, hv2, LuaValue.type, hl] at hret
  · simp [LoadTableValues_parameters, lua_pushstring, lua_gettable, lua_istable, lua_type,
      luaL_typename, lua_typename, lua_pop, lua_settop, index2addr, record, push, hv] at hret
    exact ⟨_, hret.2.symm⟩

end ReadNested

/-- Evaluates the code at the failing input of the claim C17: entered with the asset table
of `return { textures = {}, parameters = { 10 } }` at index `-1`,
`LoadTableValues_parameters` is left by the Lua error that `lua_next` raises in
`LoadTableValues_parameters_values`, not through `OnExit`: the last call is that
`lua_next`, the only `lua_pop` made is the one of the loop body and the one at `OnExit`
is not made, and three values are on a stack that had one on entry, with the converted
key and not the asset table at index `-1`.  On the same asset table
`LoadTableValues_textures` returns with the stack of the entry. -/
theorem C17_parameters_left_without_pop_on_number_key :
    numberKeyAsset.stack.map LuaValue.type = [LUA_TTABLE] ∧
    (ReadNested.LoadTableValues_parameters 5 numberKeyAsset).fault? = some .raised ∧
    (ReadNested.LoadTableValues_parameters 5 numberKeyAsset).value? = none ∧
    (ReadNested.LoadTableValues_parameters 5 numberKeyAsset).state.calls.head?
      = some (.lua_next (-2)) ∧
    (ReadNested.LoadTableValues_parameters 5 numberKeyAsset).state.calls.count (.lua_settop (-2))
      = 1 ∧
    (ReadNested.LoadTableValues_parameters 5 numberKeyAsset).state.stack.map LuaValue.type
      = [LUA_TSTRING, LUA_TTABLE, LUA_TTABLE] ∧
    (ReadNested.LoadTableValues_textures numberKeyAsset).value? = some cResult.Success ∧
    (ReadNested.LoadTableValues_textures numberKeyAsset).state.stack = numberKeyAsset.stack :=
  ⟨by decide!, by decide!, by decide!, by decide!, by decide!, by decide!, by decide!, rfl⟩

/-- Evaluates the code at the failing input of the claim C18: on a table whose only key is
the number `1`, the loop of `LoadTableValues_parameters_values` visits the pair, its
`lua_tostring` turns the key on the stack into a string, and the second `lua_next`
raises an error for a key that is not in the table: the loop does not end normally and
the key and the table are left on the stack.  The loop of `LoadTableValues_allKeys`,
which converts strings only, ends on the same table with the stack of the entry. -/
theorem C18_parameters_values_loop_breaks_on_number_key :
    (ReadNested.LoadTableValues_parameters_values 5 numberKeyTable).fault? = some .raised ∧
    (ReadNested.LoadTableValues_parameters_values 5 numberKeyTable).state.calls =
      [.lua_next (-2), .lua_settop (-2), .lua_tonumberx (-1), .lua_tolstring (-2),
        .lua_next (-2), .lua_pushnil, .luaL_newstate] ∧
    (ReadNested.LoadTableValues_parameters_values 5 numberKeyTable).state.stack.map LuaValue.type
      = [LUA_TSTRING, LUA_TTABLE] ∧
    (ReadTopLevel.LoadTableValues_allKeys 5 numberKeyTable).value? = some cResult.Success ∧
    (ReadTopLevel.LoadTableValues_allKeys 5 numberKeyTable).state.stack.map LuaValue.type
      = [LUA_TTABLE] := by
  decide!

/-! ## Results of a call with a fixed number of results -/

/-- Three requested results are the first three returned values, `nil` standing in for
those that are missing. -/
theorem adjustResults_three (vals : List LuaValue) :
    adjustResults vals 3 = [vals.getD 0 .nil, vals.getD 1 .nil, vals.getD 2 .nil] := by
  rcases vals with _ | ⟨v1, _ | ⟨v2, _ | ⟨v3, rest⟩⟩⟩ <;>
    simp [adjustResults, LUA_MULTRET, List.replicate]

/-- States the claim C19: in the `ExampleStats` block of the `main` of LuaFunctionsFromC, the
`lua_call` with four arguments and three requested results removes the function and its
arguments and puts exactly three values in their place, the first returned value at
index `-3`, the second at `-2` and the third at `-1` (`nil` for a value the function does
not return); `sum`, `product` and `average` are read from them in this order, and the
pop of `returnValueCount` values leaves the stack as it was before `lua_getglobal`. -/
theorem C19_ExampleStats_block_indices (g : LuaValue) (vals : List LuaValue)
    (a1 a2 a3 a4 fn : LuaValue) (rest : List LuaValue) (calls : List ApiCall)
    (n2s : ℚ → String) (s2n : String → Option ℚ) (L : lua_State) :
    lua_call (.returned vals) 4 3 ⟨a4 :: a3 :: a2 :: a1 :: fn :: rest, calls, n2s, s2n⟩
      = .ok () ⟨vals.getD 2 .nil :: vals.getD 1 .nil :: vals.getD 0 .nil :: rest,
                .lua_callk 4 3 :: calls, n2s, s2n⟩ ∧
    index2addr ⟨vals.getD 2 .nil :: vals.getD 1 .nil :: vals.getD 0 .nil :: rest,
        calls, n2s, s2n⟩ (-3) = .slot 2 (vals.getD 0 .nil) ∧
    index2addr ⟨vals.getD 2 .nil :: vals.getD 1 .nil :: vals.getD 0 .nil :: rest,
        calls, n2s, s2n⟩ (-2) = .slot 1 (vals.getD 1 .nil) ∧
    index2addr ⟨vals.getD 2 .nil :: vals.getD 1 .nil :: vals.getD 0 .nil :: rest,
        calls, n2s, s2n⟩ (-1) = .slot 0 (vals.getD 2 .nil) ∧
    (∃ L1, LuaFunctionsFromC.blockExampleStats ⟨g, .returned vals⟩ L
      = .ok (luaV_tonumber L.str2number (vals.getD 0 .nil),
             luaV_tonumber L.str2number (vals.getD 1 .nil),
             luaV_tonumber L.str2number (vals.getD 2 .nil)) L1 ∧
      L1.stack = L.stack ∧
      L1.calls.head? = some (.lua_settop (-4))) := by
  refine ⟨?_, ?_, ?_, ?_, ?_⟩
  · simp [lua_call, lua_callk, record, adjustResults_three]
  · simp [index2addr]
  · simp [index2addr]
  · simp [index2addr]
  · simp [LuaFunctionsFromC.blockExampleStats, lua_getglobal, lua_pushnumber, lua_call,
      lua_callk, record, push, adjustResults_three, lua_tonumber, lua_tonumberx, index2addr,
      lua_pop, lua_settop]

